import Mathlib

/-!
Shallow embedding of the AI Sifu usage-tracking and response-cache subsystem
of the jingwufoundation backend (models/aiSifu.js, handlers/ai-sifu.js,
scripts/cache-warmer.js, migration 20250628183622-create-ai-sifu-system-up.sql).

Modelling conventions:
* question texts are lists of Unicode code points (`List Nat`);
* timestamps are milliseconds since the epoch (`Nat`), one day = 86400000 ms;
* the JSONB course-usage object is an association list `List (Nat × Nat)`;
* database tables are Lean lists, SQL statements become pure functions on them;
* fallible storage operations are mirrored by `Except`-returning variants.
-/

namespace AISifu

/-! ## Question-key normalization: AISifuStore.hashQuestion (models/aiSifu.js)

    const normalized = questionText
      .toLowerCase()
      .replace(/[?.,!]/g, '')
      .replace(/\s+/g, ' ')
      .trim();
    return crypto.createHash('sha256').update(normalized).digest('hex');
-/

set_option maxHeartbeats 1600000 in
/-- The context-free lowercase mappings of Unicode Default Case Conversion
(code point to code point; generated from the Unicode character database).
The two context-dependent pieces, U+0130 and the Final_Sigma rule for
U+03A3, are handled in lowerChar and toLowerCase below. -/
def lowerTable : List (Nat × Nat) :=
  [(65, 97), (66, 98), (67, 99), (68, 100), (69, 101), (70, 102),
   (71, 103), (72, 104), (73, 105), (74, 106), (75, 107), (76, 108),
   (77, 109), (78, 110), (79, 111), (80, 112), (81, 113), (82, 114),
   (83, 115), (84, 116), (85, 117), (86, 118), (87, 119), (88, 120),
   (89, 121), (90, 122), (192, 224), (193, 225), (194, 226), (195, 227),
   (196, 228), (197, 229), (198, 230), (199, 231), (200, 232), (201, 233),
   (202, 234), (203, 235), (204, 236), (205, 237), (206, 238), (207, 239),
   (208, 240), (209, 241), (210, 242), (211, 243), (212, 244), (213, 245),
   (214, 246), (216, 248), (217, 249), (218, 250), (219, 251), (220, 252),
   (221, 253), (222, 254), (256, 257), (258, 259), (260, 261), (262, 263),
   (264, 265), (266, 267), (268, 269), (270, 271), (272, 273), (274, 275),
   (276, 277), (278, 279), (280, 281), (282, 283), (284, 285), (286, 287),
   (288, 289), (290, 291), (292, 293), (294, 295), (296, 297), (298, 299),
   (300, 301), (302, 303), (306, 307), (308, 309), (310, 311), (313, 314),
   (315, 316), (317, 318), (319, 320), (321, 322), (323, 324), (325, 326),
   (327, 328), (330, 331), (332, 333), (334, 335), (336, 337), (338, 339),
   (340, 341), (342, 343), (344, 345), (346, 347), (348, 349), (350, 351),
   (352, 353), (354, 355), (356, 357), (358, 359), (360, 361), (362, 363),
   (364, 365), (366, 367), (368, 369), (370, 371), (372, 373), (374, 375),
   (376, 255), (377, 378), (379, 380), (381, 382), (385, 595), (386, 387),
   (388, 389), (390, 596), (391, 392), (393, 598), (394, 599), (395, 396),
   (398, 477), (399, 601), (400, 603), (401, 402), (403, 608), (404, 611),
   (406, 617), (407, 616), (408, 409), (412, 623), (413, 626), (415, 629),
   (416, 417), (418, 419), (420, 421), (422, 640), (423, 424), (425, 643),
   (428, 429), (430, 648), (431, 432), (433, 650), (434, 651), (435, 436),
   (437, 438), (439, 658), (440, 441), (444, 445), (452, 454), (453, 454),
   (455, 457), (456, 457), (458, 460), (459, 460), (461, 462), (463, 464),
   (465, 466), (467, 468), (469, 470), (471, 472), (473, 474), (475, 476),
   (478, 479), (480, 481), (482, 483), (484, 485), (486, 487), (488, 489),
   (490, 491), (492, 493), (494, 495), (497, 499), (498, 499), (500, 501),
   (502, 405), (503, 447), (504, 505), (506, 507), (508, 509), (510, 511),
   (512, 513), (514, 515), (516, 517), (518, 519), (520, 521), (522, 523),
   (524, 525), (526, 527), (528, 529), (530, 531), (532, 533), (534, 535),
   (536, 537), (538, 539), (540, 541), (542, 543), (544, 414), (546, 547),
   (548, 549), (550, 551), (552, 553), (554, 555), (556, 557), (558, 559),
   (560, 561), (562, 563), (570, 11365), (571, 572), (573, 410), (574, 11366),
   (577, 578), (579, 384), (580, 649), (581, 652), (582, 583), (584, 585),
   (586, 587), (588, 589), (590, 591), (880, 881), (882, 883), (886, 887),
   (895, 1011), (902, 940), (904, 941), (905, 942), (906, 943), (908, 972),
   (910, 973), (911, 974), (913, 945), (914, 946), (915, 947), (916, 948),
   (917, 949), (918, 950), (919, 951), (920, 952), (921, 953), (922, 954),
   (923, 955), (924, 956), (925, 957), (926, 958), (927, 959), (928, 960),
   (929, 961), (931, 963), (932, 964), (933, 965), (934, 966), (935, 967),
   (936, 968), (937, 969), (938, 970), (939, 971), (975, 983), (984, 985),
   (986, 987), (988, 989), (990, 991), (992, 993), (994, 995), (996, 997),
   (998, 999), (1000, 1001), (1002, 1003), (1004, 1005), (1006, 1007), (1012, 952),
   (1015, 1016), (1017, 1010), (1018, 1019), (1021, 891), (1022, 892), (1023, 893),
   (1024, 1104), (1025, 1105), (1026, 1106), (1027, 1107), (1028, 1108), (1029, 1109),
   (1030, 1110), (1031, 1111), (1032, 1112), (1033, 1113), (1034, 1114), (1035, 1115),
   (1036, 1116), (1037, 1117), (1038, 1118), (1039, 1119), (1040, 1072), (1041, 1073),
   (1042, 1074), (1043, 1075), (1044, 1076), (1045, 1077), (1046, 1078), (1047, 1079),
   (1048, 1080), (1049, 1081), (1050, 1082), (1051, 1083), (1052, 1084), (1053, 1085),
   (1054, 1086), (1055, 1087), (1056, 1088), (1057, 1089), (1058, 1090), (1059, 1091),
   (1060, 1092), (1061, 1093), (1062, 1094), (1063, 1095), (1064, 1096), (1065, 1097),
   (1066, 1098), (1067, 1099), (1068, 1100), (1069, 1101), (1070, 1102), (1071, 1103),
   (1120, 1121), (1122, 1123), (1124, 1125), (1126, 1127), (1128, 1129), (1130, 1131),
   (1132, 1133), (1134, 1135), (1136, 1137), (1138, 1139), (1140, 1141), (1142, 1143),
   (1144, 1145), (1146, 1147), (1148, 1149), (1150, 1151), (1152, 1153), (1162, 1163),
   (1164, 1165), (1166, 1167), (1168, 1169), (1170, 1171), (1172, 1173), (1174, 1175),
   (1176, 1177), (1178, 1179), (1180, 1181), (1182, 1183), (1184, 1185), (1186, 1187),
   (1188, 1189), (1190, 1191), (1192, 1193), (1194, 1195), (1196, 1197), (1198, 1199),
   (1200, 1201), (1202, 1203), (1204, 1205), (1206, 1207), (1208, 1209), (1210, 1211),
   (1212, 1213), (1214, 1215), (1216, 1231), (1217, 1218), (1219, 1220), (1221, 1222),
   (1223, 1224), (1225, 1226), (1227, 1228), (1229, 1230), (1232, 1233), (1234, 1235),
   (1236, 1237), (1238, 1239), (1240, 1241), (1242, 1243), (1244, 1245), (1246, 1247),
   (1248, 1249), (1250, 1251), (1252, 1253), (1254, 1255), (1256, 1257), (1258, 1259),
   (1260, 1261), (1262, 1263), (1264, 1265), (1266, 1267), (1268, 1269), (1270, 1271),
   (1272, 1273), (1274, 1275), (1276, 1277), (1278, 1279), (1280, 1281), (1282, 1283),
   (1284, 1285), (1286, 1287), (1288, 1289), (1290, 1291), (1292, 1293), (1294, 1295),
   (1296, 1297), (1298, 1299), (1300, 1301), (1302, 1303), (1304, 1305), (1306, 1307),
   (1308, 1309), (1310, 1311), (1312, 1313), (1314, 1315), (1316, 1317), (1318, 1319),
   (1320, 1321), (1322, 1323), (1324, 1325), (1326, 1327), (1329, 1377), (1330, 1378),
   (1331, 1379), (1332, 1380), (1333, 1381), (1334, 1382), (1335, 1383), (1336, 1384),
   (1337, 1385), (1338, 1386), (1339, 1387), (1340, 1388), (1341, 1389), (1342, 1390),
   (1343, 1391), (1344, 1392), (1345, 1393), (1346, 1394), (1347, 1395), (1348, 1396),
   (1349, 1397), (1350, 1398), (1351, 1399), (1352, 1400), (1353, 1401), (1354, 1402),
   (1355, 1403), (1356, 1404), (1357, 1405), (1358, 1406), (1359, 1407), (1360, 1408),
   (1361, 1409), (1362, 1410), (1363, 1411), (1364, 1412), (1365, 1413), (1366, 1414),
   (4256, 11520), (4257, 11521), (4258, 11522), (4259, 11523), (4260, 11524), (4261, 11525),
   (4262, 11526), (4263, 11527), (4264, 11528), (4265, 11529), (4266, 11530), (4267, 11531),
   (4268, 11532), (4269, 11533), (4270, 11534), (4271, 11535), (4272, 11536), (4273, 11537),
   (4274, 11538), (4275, 11539), (4276, 11540), (4277, 11541), (4278, 11542), (4279, 11543),
   (4280, 11544), (4281, 11545), (4282, 11546), (4283, 11547), (4284, 11548), (4285, 11549),
   (4286, 11550), (4287, 11551), (4288, 11552), (4289, 11553), (4290, 11554), (4291, 11555),
   (4292, 11556), (4293, 11557), (4295, 11559), (4301, 11565), (5024, 43888), (5025, 43889),
   (5026, 43890), (5027, 43891), (5028, 43892), (5029, 43893), (5030, 43894), (5031, 43895),
   (5032, 43896), (5033, 43897), (5034, 43898), (5035, 43899), (5036, 43900), (5037, 43901),
   (5038, 43902), (5039, 43903), (5040, 43904), (5041, 43905), (5042, 43906), (5043, 43907),
   (5044, 43908), (5045, 43909), (5046, 43910), (5047, 43911), (5048, 43912), (5049, 43913),
   (5050, 43914), (5051, 43915), (5052, 43916), (5053, 43917), (5054, 43918), (5055, 43919),
   (5056, 43920), (5057, 43921), (5058, 43922), (5059, 43923), (5060, 43924), (5061, 43925),
   (5062, 43926), (5063, 43927), (5064, 43928), (5065, 43929), (5066, 43930), (5067, 43931),
   (5068, 43932), (5069, 43933), (5070, 43934), (5071, 43935), (5072, 43936), (5073, 43937),
   (5074, 43938), (5075, 43939), (5076, 43940), (5077, 43941), (5078, 43942), (5079, 43943),
   (5080, 43944), (5081, 43945), (5082, 43946), (5083, 43947), (5084, 43948), (5085, 43949),
   (5086, 43950), (5087, 43951), (5088, 43952), (5089, 43953), (5090, 43954), (5091, 43955),
   (5092, 43956), (5093, 43957), (5094, 43958), (5095, 43959), (5096, 43960), (5097, 43961),
   (5098, 43962), (5099, 43963), (5100, 43964), (5101, 43965), (5102, 43966), (5103, 43967),
   (5104, 5112), (5105, 5113), (5106, 5114), (5107, 5115), (5108, 5116), (5109, 5117),
   (7312, 4304), (7313, 4305), (7314, 4306), (7315, 4307), (7316, 4308), (7317, 4309),
   (7318, 4310), (7319, 4311), (7320, 4312), (7321, 4313), (7322, 4314), (7323, 4315),
   (7324, 4316), (7325, 4317), (7326, 4318), (7327, 4319), (7328, 4320), (7329, 4321),
   (7330, 4322), (7331, 4323), (7332, 4324), (7333, 4325), (7334, 4326), (7335, 4327),
   (7336, 4328), (7337, 4329), (7338, 4330), (7339, 4331), (7340, 4332), (7341, 4333),
   (7342, 4334), (7343, 4335), (7344, 4336), (7345, 4337), (7346, 4338), (7347, 4339),
   (7348, 4340), (7349, 4341), (7350, 4342), (7351, 4343), (7352, 4344), (7353, 4345),
   (7354, 4346), (7357, 4349), (7358, 4350), (7359, 4351), (7680, 7681), (7682, 7683),
   (7684, 7685), (7686, 7687), (7688, 7689), (7690, 7691), (7692, 7693), (7694, 7695),
   (7696, 7697), (7698, 7699), (7700, 7701), (7702, 7703), (7704, 7705), (7706, 7707),
   (7708, 7709), (7710, 7711), (7712, 7713), (7714, 7715), (7716, 7717), (7718, 7719),
   (7720, 7721), (7722, 7723), (7724, 7725), (7726, 7727), (7728, 7729), (7730, 7731),
   (7732, 7733), (7734, 7735), (7736, 7737), (7738, 7739), (7740, 7741), (7742, 7743),
   (7744, 7745), (7746, 7747), (7748, 7749), (7750, 7751), (7752, 7753), (7754, 7755),
   (7756, 7757), (7758, 7759), (7760, 7761), (7762, 7763), (7764, 7765), (7766, 7767),
   (7768, 7769), (7770, 7771), (7772, 7773), (7774, 7775), (7776, 7777), (7778, 7779),
   (7780, 7781), (7782, 7783), (7784, 7785), (7786, 7787), (7788, 7789), (7790, 7791),
   (7792, 7793), (7794, 7795), (7796, 7797), (7798, 7799), (7800, 7801), (7802, 7803),
   (7804, 7805), (7806, 7807), (7808, 7809), (7810, 7811), (7812, 7813), (7814, 7815),
   (7816, 7817), (7818, 7819), (7820, 7821), (7822, 7823), (7824, 7825), (7826, 7827),
   (7828, 7829), (7838, 223), (7840, 7841), (7842, 7843), (7844, 7845), (7846, 7847),
   (7848, 7849), (7850, 7851), (7852, 7853), (7854, 7855), (7856, 7857), (7858, 7859),
   (7860, 7861), (7862, 7863), (7864, 7865), (7866, 7867), (7868, 7869), (7870, 7871),
   (7872, 7873), (7874, 7875), (7876, 7877), (7878, 7879), (7880, 7881), (7882, 7883),
   (7884, 7885), (7886, 7887), (7888, 7889), (7890, 7891), (7892, 7893), (7894, 7895),
   (7896, 7897), (7898, 7899), (7900, 7901), (7902, 7903), (7904, 7905), (7906, 7907),
   (7908, 7909), (7910, 7911), (7912, 7913), (7914, 7915), (7916, 7917), (7918, 7919),
   (7920, 7921), (7922, 7923), (7924, 7925), (7926, 7927), (7928, 7929), (7930, 7931),
   (7932, 7933), (7934, 7935), (7944, 7936), (7945, 7937), (7946, 7938), (7947, 7939),
   (7948, 7940), (7949, 7941), (7950, 7942), (7951, 7943), (7960, 7952), (7961, 7953),
   (7962, 7954), (7963, 7955), (7964, 7956), (7965, 7957), (7976, 7968), (7977, 7969),
   (7978, 7970), (7979, 7971), (7980, 7972), (7981, 7973), (7982, 7974), (7983, 7975),
   (7992, 7984), (7993, 7985), (7994, 7986), (7995, 7987), (7996, 7988), (7997, 7989),
   (7998, 7990), (7999, 7991), (8008, 8000), (8009, 8001), (8010, 8002), (8011, 8003),
   (8012, 8004), (8013, 8005), (8025, 8017), (8027, 8019), (8029, 8021), (8031, 8023),
   (8040, 8032), (8041, 8033), (8042, 8034), (8043, 8035), (8044, 8036), (8045, 8037),
   (8046, 8038), (8047, 8039), (8072, 8064), (8073, 8065), (8074, 8066), (8075, 8067),
   (8076, 8068), (8077, 8069), (8078, 8070), (8079, 8071), (8088, 8080), (8089, 8081),
   (8090, 8082), (8091, 8083), (8092, 8084), (8093, 8085), (8094, 8086), (8095, 8087),
   (8104, 8096), (8105, 8097), (8106, 8098), (8107, 8099), (8108, 8100), (8109, 8101),
   (8110, 8102), (8111, 8103), (8120, 8112), (8121, 8113), (8122, 8048), (8123, 8049),
   (8124, 8115), (8136, 8050), (8137, 8051), (8138, 8052), (8139, 8053), (8140, 8131),
   (8152, 8144), (8153, 8145), (8154, 8054), (8155, 8055), (8168, 8160), (8169, 8161),
   (8170, 8058), (8171, 8059), (8172, 8165), (8184, 8056), (8185, 8057), (8186, 8060),
   (8187, 8061), (8188, 8179), (8486, 969), (8490, 107), (8491, 229), (8498, 8526),
   (8544, 8560), (8545, 8561), (8546, 8562), (8547, 8563), (8548, 8564), (8549, 8565),
   (8550, 8566), (8551, 8567), (8552, 8568), (8553, 8569), (8554, 8570), (8555, 8571),
   (8556, 8572), (8557, 8573), (8558, 8574), (8559, 8575), (8579, 8580), (9398, 9424),
   (9399, 9425), (9400, 9426), (9401, 9427), (9402, 9428), (9403, 9429), (9404, 9430),
   (9405, 9431), (9406, 9432), (9407, 9433), (9408, 9434), (9409, 9435), (9410, 9436),
   (9411, 9437), (9412, 9438), (9413, 9439), (9414, 9440), (9415, 9441), (9416, 9442),
   (9417, 9443), (9418, 9444), (9419, 9445), (9420, 9446), (9421, 9447), (9422, 9448),
   (9423, 9449), (11264, 11312), (11265, 11313), (11266, 11314), (11267, 11315), (11268, 11316),
   (11269, 11317), (11270, 11318), (11271, 11319), (11272, 11320), (11273, 11321), (11274, 11322),
   (11275, 11323), (11276, 11324), (11277, 11325), (11278, 11326), (11279, 11327), (11280, 11328),
   (11281, 11329), (11282, 11330), (11283, 11331), (11284, 11332), (11285, 11333), (11286, 11334),
   (11287, 11335), (11288, 11336), (11289, 11337), (11290, 11338), (11291, 11339), (11292, 11340),
   (11293, 11341), (11294, 11342), (11295, 11343), (11296, 11344), (11297, 11345), (11298, 11346),
   (11299, 11347), (11300, 11348), (11301, 11349), (11302, 11350), (11303, 11351), (11304, 11352),
   (11305, 11353), (11306, 11354), (11307, 11355), (11308, 11356), (11309, 11357), (11310, 11358),
   (11311, 11359), (11360, 11361), (11362, 619), (11363, 7549), (11364, 637), (11367, 11368),
   (11369, 11370), (11371, 11372), (11373, 593), (11374, 625), (11375, 592), (11376, 594),
   (11378, 11379), (11381, 11382), (11390, 575), (11391, 576), (11392, 11393), (11394, 11395),
   (11396, 11397), (11398, 11399), (11400, 11401), (11402, 11403), (11404, 11405), (11406, 11407),
   (11408, 11409), (11410, 11411), (11412, 11413), (11414, 11415), (11416, 11417), (11418, 11419),
   (11420, 11421), (11422, 11423), (11424, 11425), (11426, 11427), (11428, 11429), (11430, 11431),
   (11432, 11433), (11434, 11435), (11436, 11437), (11438, 11439), (11440, 11441), (11442, 11443),
   (11444, 11445), (11446, 11447), (11448, 11449), (11450, 11451), (11452, 11453), (11454, 11455),
   (11456, 11457), (11458, 11459), (11460, 11461), (11462, 11463), (11464, 11465), (11466, 11467),
   (11468, 11469), (11470, 11471), (11472, 11473), (11474, 11475), (11476, 11477), (11478, 11479),
   (11480, 11481), (11482, 11483), (11484, 11485), (11486, 11487), (11488, 11489), (11490, 11491),
   (11499, 11500), (11501, 11502), (11506, 11507), (42560, 42561), (42562, 42563), (42564, 42565),
   (42566, 42567), (42568, 42569), (42570, 42571), (42572, 42573), (42574, 42575), (42576, 42577),
   (42578, 42579), (42580, 42581), (42582, 42583), (42584, 42585), (42586, 42587), (42588, 42589),
   (42590, 42591), (42592, 42593), (42594, 42595), (42596, 42597), (42598, 42599), (42600, 42601),
   (42602, 42603), (42604, 42605), (42624, 42625), (42626, 42627), (42628, 42629), (42630, 42631),
   (42632, 42633), (42634, 42635), (42636, 42637), (42638, 42639), (42640, 42641), (42642, 42643),
   (42644, 42645), (42646, 42647), (42648, 42649), (42650, 42651), (42786, 42787), (42788, 42789),
   (42790, 42791), (42792, 42793), (42794, 42795), (42796, 42797), (42798, 42799), (42802, 42803),
   (42804, 42805), (42806, 42807), (42808, 42809), (42810, 42811), (42812, 42813), (42814, 42815),
   (42816, 42817), (42818, 42819), (42820, 42821), (42822, 42823), (42824, 42825), (42826, 42827),
   (42828, 42829), (42830, 42831), (42832, 42833), (42834, 42835), (42836, 42837), (42838, 42839),
   (42840, 42841), (42842, 42843), (42844, 42845), (42846, 42847), (42848, 42849), (42850, 42851),
   (42852, 42853), (42854, 42855), (42856, 42857), (42858, 42859), (42860, 42861), (42862, 42863),
   (42873, 42874), (42875, 42876), (42877, 7545), (42878, 42879), (42880, 42881), (42882, 42883),
   (42884, 42885), (42886, 42887), (42891, 42892), (42893, 613), (42896, 42897), (42898, 42899),
   (42902, 42903), (42904, 42905), (42906, 42907), (42908, 42909), (42910, 42911), (42912, 42913),
   (42914, 42915), (42916, 42917), (42918, 42919), (42920, 42921), (42922, 614), (42923, 604),
   (42924, 609), (42925, 620), (42926, 618), (42928, 670), (42929, 647), (42930, 669),
   (42931, 43859), (42932, 42933), (42934, 42935), (42936, 42937), (42938, 42939), (42940, 42941),
   (42942, 42943), (42944, 42945), (42946, 42947), (42948, 42900), (42949, 642), (42950, 7566),
   (42951, 42952), (42953, 42954), (42960, 42961), (42966, 42967), (42968, 42969), (42997, 42998),
   (65313, 65345), (65314, 65346), (65315, 65347), (65316, 65348), (65317, 65349), (65318, 65350),
   (65319, 65351), (65320, 65352), (65321, 65353), (65322, 65354), (65323, 65355), (65324, 65356),
   (65325, 65357), (65326, 65358), (65327, 65359), (65328, 65360), (65329, 65361), (65330, 65362),
   (65331, 65363), (65332, 65364), (65333, 65365), (65334, 65366), (65335, 65367), (65336, 65368),
   (65337, 65369), (65338, 65370), (66560, 66600), (66561, 66601), (66562, 66602), (66563, 66603),
   (66564, 66604), (66565, 66605), (66566, 66606), (66567, 66607), (66568, 66608), (66569, 66609),
   (66570, 66610), (66571, 66611), (66572, 66612), (66573, 66613), (66574, 66614), (66575, 66615),
   (66576, 66616), (66577, 66617), (66578, 66618), (66579, 66619), (66580, 66620), (66581, 66621),
   (66582, 66622), (66583, 66623), (66584, 66624), (66585, 66625), (66586, 66626), (66587, 66627),
   (66588, 66628), (66589, 66629), (66590, 66630), (66591, 66631), (66592, 66632), (66593, 66633),
   (66594, 66634), (66595, 66635), (66596, 66636), (66597, 66637), (66598, 66638), (66599, 66639),
   (66736, 66776), (66737, 66777), (66738, 66778), (66739, 66779), (66740, 66780), (66741, 66781),
   (66742, 66782), (66743, 66783), (66744, 66784), (66745, 66785), (66746, 66786), (66747, 66787),
   (66748, 66788), (66749, 66789), (66750, 66790), (66751, 66791), (66752, 66792), (66753, 66793),
   (66754, 66794), (66755, 66795), (66756, 66796), (66757, 66797), (66758, 66798), (66759, 66799),
   (66760, 66800), (66761, 66801), (66762, 66802), (66763, 66803), (66764, 66804), (66765, 66805),
   (66766, 66806), (66767, 66807), (66768, 66808), (66769, 66809), (66770, 66810), (66771, 66811),
   (66928, 66967), (66929, 66968), (66930, 66969), (66931, 66970), (66932, 66971), (66933, 66972),
   (66934, 66973), (66935, 66974), (66936, 66975), (66937, 66976), (66938, 66977), (66940, 66979),
   (66941, 66980), (66942, 66981), (66943, 66982), (66944, 66983), (66945, 66984), (66946, 66985),
   (66947, 66986), (66948, 66987), (66949, 66988), (66950, 66989), (66951, 66990), (66952, 66991),
   (66953, 66992), (66954, 66993), (66956, 66995), (66957, 66996), (66958, 66997), (66959, 66998),
   (66960, 66999), (66961, 67000), (66962, 67001), (66964, 67003), (66965, 67004), (68736, 68800),
   (68737, 68801), (68738, 68802), (68739, 68803), (68740, 68804), (68741, 68805), (68742, 68806),
   (68743, 68807), (68744, 68808), (68745, 68809), (68746, 68810), (68747, 68811), (68748, 68812),
   (68749, 68813), (68750, 68814), (68751, 68815), (68752, 68816), (68753, 68817), (68754, 68818),
   (68755, 68819), (68756, 68820), (68757, 68821), (68758, 68822), (68759, 68823), (68760, 68824),
   (68761, 68825), (68762, 68826), (68763, 68827), (68764, 68828), (68765, 68829), (68766, 68830),
   (68767, 68831), (68768, 68832), (68769, 68833), (68770, 68834), (68771, 68835), (68772, 68836),
   (68773, 68837), (68774, 68838), (68775, 68839), (68776, 68840), (68777, 68841), (68778, 68842),
   (68779, 68843), (68780, 68844), (68781, 68845), (68782, 68846), (68783, 68847), (68784, 68848),
   (68785, 68849), (68786, 68850), (71840, 71872), (71841, 71873), (71842, 71874), (71843, 71875),
   (71844, 71876), (71845, 71877), (71846, 71878), (71847, 71879), (71848, 71880), (71849, 71881),
   (71850, 71882), (71851, 71883), (71852, 71884), (71853, 71885), (71854, 71886), (71855, 71887),
   (71856, 71888), (71857, 71889), (71858, 71890), (71859, 71891), (71860, 71892), (71861, 71893),
   (71862, 71894), (71863, 71895), (71864, 71896), (71865, 71897), (71866, 71898), (71867, 71899),
   (71868, 71900), (71869, 71901), (71870, 71902), (71871, 71903), (93760, 93792), (93761, 93793),
   (93762, 93794), (93763, 93795), (93764, 93796), (93765, 93797), (93766, 93798), (93767, 93799),
   (93768, 93800), (93769, 93801), (93770, 93802), (93771, 93803), (93772, 93804), (93773, 93805),
   (93774, 93806), (93775, 93807), (93776, 93808), (93777, 93809), (93778, 93810), (93779, 93811),
   (93780, 93812), (93781, 93813), (93782, 93814), (93783, 93815), (93784, 93816), (93785, 93817),
   (93786, 93818), (93787, 93819), (93788, 93820), (93789, 93821), (93790, 93822), (93791, 93823),
   (125184, 125218), (125185, 125219), (125186, 125220), (125187, 125221), (125188, 125222), (125189, 125223),
   (125190, 125224), (125191, 125225), (125192, 125226), (125193, 125227), (125194, 125228), (125195, 125229),
   (125196, 125230), (125197, 125231), (125198, 125232), (125199, 125233), (125200, 125234), (125201, 125235),
   (125202, 125236), (125203, 125237), (125204, 125238), (125205, 125239), (125206, 125240), (125207, 125241),
   (125208, 125242), (125209, 125243), (125210, 125244), (125211, 125245), (125212, 125246), (125213, 125247),
   (125214, 125248), (125215, 125249), (125216, 125250), (125217, 125251)]

/-- The code-point ranges (inclusive) of Cased characters, as consumed by
the Final_Sigma condition of Unicode Default Case Conversion. -/
def casedRanges : List (Nat × Nat) :=
  [(65, 90), (97, 122), (170, 170), (181, 181), (186, 186), (192, 214),
   (216, 246), (248, 442), (444, 447), (452, 659), (661, 687), (880, 883),
   (886, 887), (891, 893), (895, 895), (902, 902), (904, 906), (908, 908),
   (910, 929), (931, 1013), (1015, 1153), (1162, 1327), (1329, 1366), (1376, 1416),
   (4256, 4293), (4295, 4295), (4301, 4301), (4304, 4346), (4349, 4351), (5024, 5109),
   (5112, 5117), (7296, 7304), (7312, 7354), (7357, 7359), (7424, 7467), (7531, 7543),
   (7545, 7578), (7680, 7957), (7960, 7965), (7968, 8005), (8008, 8013), (8016, 8023),
   (8025, 8025), (8027, 8027), (8029, 8029), (8031, 8061), (8064, 8116), (8118, 8124),
   (8126, 8126), (8130, 8132), (8134, 8140), (8144, 8147), (8150, 8155), (8160, 8172),
   (8178, 8180), (8182, 8188), (8450, 8450), (8455, 8455), (8458, 8467), (8469, 8469),
   (8473, 8477), (8484, 8484), (8486, 8486), (8488, 8488), (8490, 8493), (8495, 8500),
   (8505, 8505), (8508, 8511), (8517, 8521), (8526, 8526), (8544, 8575), (8579, 8580),
   (9398, 9449), (11264, 11387), (11390, 11492), (11499, 11502), (11506, 11507), (11520, 11557),
   (11559, 11559), (11565, 11565), (42560, 42605), (42624, 42651), (42786, 42863), (42865, 42887),
   (42891, 42894), (42896, 42954), (42960, 42961), (42963, 42963), (42965, 42969), (42997, 42998),
   (43002, 43002), (43824, 43866), (43872, 43880), (43888, 43967), (64256, 64262), (64275, 64279),
   (65313, 65338), (65345, 65370), (66560, 66639), (66736, 66771), (66776, 66811), (66928, 66938),
   (66940, 66954), (66956, 66962), (66964, 66965), (66967, 66977), (66979, 66993), (66995, 67001),
   (67003, 67004), (68736, 68786), (68800, 68850), (71840, 71903), (93760, 93823), (119808, 119892),
   (119894, 119964), (119966, 119967), (119970, 119970), (119973, 119974), (119977, 119980), (119982, 119993),
   (119995, 119995), (119997, 120003), (120005, 120069), (120071, 120074), (120077, 120084), (120086, 120092),
   (120094, 120121), (120123, 120126), (120128, 120132), (120134, 120134), (120138, 120144), (120146, 120485),
   (120488, 120512), (120514, 120538), (120540, 120570), (120572, 120596), (120598, 120628), (120630, 120654),
   (120656, 120686), (120688, 120712), (120714, 120744), (120746, 120770), (120772, 120779), (122624, 122633),
   (122635, 122654), (125184, 125251), (127280, 127305), (127312, 127337), (127344, 127369)]

/-- The code-point ranges (inclusive) of Case_Ignorable characters, as
consumed by the Final_Sigma condition. -/
def caseIgnorableRanges : List (Nat × Nat) :=
  [(39, 39), (46, 46), (58, 58), (94, 94), (96, 96), (168, 168),
   (173, 173), (175, 175), (180, 180), (183, 184), (688, 879), (884, 885),
   (890, 890), (900, 901), (903, 903), (1155, 1161), (1369, 1369), (1375, 1375),
   (1425, 1469), (1471, 1471), (1473, 1474), (1476, 1477), (1479, 1479), (1524, 1524),
   (1536, 1541), (1552, 1562), (1564, 1564), (1600, 1600), (1611, 1631), (1648, 1648),
   (1750, 1757), (1759, 1768), (1770, 1773), (1807, 1807), (1809, 1809), (1840, 1866),
   (1958, 1968), (2027, 2037), (2042, 2042), (2045, 2045), (2070, 2093), (2137, 2139),
   (2184, 2184), (2192, 2193), (2200, 2207), (2249, 2306), (2362, 2362), (2364, 2364),
   (2369, 2376), (2381, 2381), (2385, 2391), (2402, 2403), (2417, 2417), (2433, 2433),
   (2492, 2492), (2497, 2500), (2509, 2509), (2530, 2531), (2558, 2558), (2561, 2562),
   (2620, 2620), (2625, 2626), (2631, 2632), (2635, 2637), (2641, 2641), (2672, 2673),
   (2677, 2677), (2689, 2690), (2748, 2748), (2753, 2757), (2759, 2760), (2765, 2765),
   (2786, 2787), (2810, 2815), (2817, 2817), (2876, 2876), (2879, 2879), (2881, 2884),
   (2893, 2893), (2901, 2902), (2914, 2915), (2946, 2946), (3008, 3008), (3021, 3021),
   (3072, 3072), (3076, 3076), (3132, 3132), (3134, 3136), (3142, 3144), (3146, 3149),
   (3157, 3158), (3170, 3171), (3201, 3201), (3260, 3260), (3263, 3263), (3270, 3270),
   (3276, 3277), (3298, 3299), (3328, 3329), (3387, 3388), (3393, 3396), (3405, 3405),
   (3426, 3427), (3457, 3457), (3530, 3530), (3538, 3540), (3542, 3542), (3633, 3633),
   (3636, 3642), (3654, 3662), (3761, 3761), (3764, 3772), (3782, 3782), (3784, 3789),
   (3864, 3865), (3893, 3893), (3895, 3895), (3897, 3897), (3953, 3966), (3968, 3972),
   (3974, 3975), (3981, 3991), (3993, 4028), (4038, 4038), (4141, 4144), (4146, 4151),
   (4153, 4154), (4157, 4158), (4184, 4185), (4190, 4192), (4209, 4212), (4226, 4226),
   (4229, 4230), (4237, 4237), (4253, 4253), (4348, 4348), (4957, 4959), (5906, 5908),
   (5938, 5939), (5970, 5971), (6002, 6003), (6068, 6069), (6071, 6077), (6086, 6086),
   (6089, 6099), (6103, 6103), (6109, 6109), (6155, 6159), (6211, 6211), (6277, 6278),
   (6313, 6313), (6432, 6434), (6439, 6440), (6450, 6450), (6457, 6459), (6679, 6680),
   (6683, 6683), (6742, 6742), (6744, 6750), (6752, 6752), (6754, 6754), (6757, 6764),
   (6771, 6780), (6783, 6783), (6823, 6823), (6832, 6862), (6912, 6915), (6964, 6964),
   (6966, 6970), (6972, 6972), (6978, 6978), (7019, 7027), (7040, 7041), (7074, 7077),
   (7080, 7081), (7083, 7085), (7142, 7142), (7144, 7145), (7149, 7149), (7151, 7153),
   (7212, 7219), (7222, 7223), (7288, 7293), (7376, 7378), (7380, 7392), (7394, 7400),
   (7405, 7405), (7412, 7412), (7416, 7417), (7468, 7530), (7544, 7544), (7579, 7679),
   (8125, 8125), (8127, 8129), (8141, 8143), (8157, 8159), (8173, 8175), (8189, 8190),
   (8203, 8207), (8216, 8217), (8228, 8228), (8231, 8231), (8234, 8238), (8288, 8292),
   (8294, 8303), (8305, 8305), (8319, 8319), (8336, 8348), (8400, 8432), (11388, 11389),
   (11503, 11505), (11631, 11631), (11647, 11647), (11744, 11775), (11823, 11823), (12293, 12293),
   (12330, 12333), (12337, 12341), (12347, 12347), (12441, 12446), (12540, 12542), (40981, 40981),
   (42232, 42237), (42508, 42508), (42607, 42610), (42612, 42621), (42623, 42623), (42652, 42655),
   (42736, 42737), (42752, 42785), (42864, 42864), (42888, 42890), (42994, 42996), (43000, 43001),
   (43010, 43010), (43014, 43014), (43019, 43019), (43045, 43046), (43052, 43052), (43204, 43205),
   (43232, 43249), (43263, 43263), (43302, 43309), (43335, 43345), (43392, 43394), (43443, 43443),
   (43446, 43449), (43452, 43453), (43471, 43471), (43493, 43494), (43561, 43566), (43569, 43570),
   (43573, 43574), (43587, 43587), (43596, 43596), (43632, 43632), (43644, 43644), (43696, 43696),
   (43698, 43700), (43703, 43704), (43710, 43711), (43713, 43713), (43741, 43741), (43756, 43757),
   (43763, 43764), (43766, 43766), (43867, 43871), (43881, 43883), (44005, 44005), (44008, 44008),
   (44013, 44013), (64286, 64286), (64434, 64450), (65024, 65039), (65043, 65043), (65056, 65071),
   (65106, 65106), (65109, 65109), (65279, 65279), (65287, 65287), (65294, 65294), (65306, 65306),
   (65342, 65342), (65344, 65344), (65392, 65392), (65438, 65439), (65507, 65507), (65529, 65531),
   (66045, 66045), (66272, 66272), (66422, 66426), (67456, 67461), (67463, 67504), (67506, 67514),
   (68097, 68099), (68101, 68102), (68108, 68111), (68152, 68154), (68159, 68159), (68325, 68326),
   (68900, 68903), (69291, 69292), (69446, 69456), (69506, 69509), (69633, 69633), (69688, 69702),
   (69744, 69744), (69747, 69748), (69759, 69761), (69811, 69814), (69817, 69818), (69821, 69821),
   (69826, 69826), (69837, 69837), (69888, 69890), (69927, 69931), (69933, 69940), (70003, 70003),
   (70016, 70017), (70070, 70078), (70089, 70092), (70095, 70095), (70191, 70193), (70196, 70196),
   (70198, 70199), (70206, 70206), (70367, 70367), (70371, 70378), (70400, 70401), (70459, 70460),
   (70464, 70464), (70502, 70508), (70512, 70516), (70712, 70719), (70722, 70724), (70726, 70726),
   (70750, 70750), (70835, 70840), (70842, 70842), (70847, 70848), (70850, 70851), (71090, 71093),
   (71100, 71101), (71103, 71104), (71132, 71133), (71219, 71226), (71229, 71229), (71231, 71232),
   (71339, 71339), (71341, 71341), (71344, 71349), (71351, 71351), (71453, 71455), (71458, 71461),
   (71463, 71467), (71727, 71735), (71737, 71738), (71995, 71996), (71998, 71998), (72003, 72003),
   (72148, 72151), (72154, 72155), (72160, 72160), (72193, 72202), (72243, 72248), (72251, 72254),
   (72263, 72263), (72273, 72278), (72281, 72283), (72330, 72342), (72344, 72345), (72752, 72758),
   (72760, 72765), (72767, 72767), (72850, 72871), (72874, 72880), (72882, 72883), (72885, 72886),
   (73009, 73014), (73018, 73018), (73020, 73021), (73023, 73029), (73031, 73031), (73104, 73105),
   (73109, 73109), (73111, 73111), (73459, 73460), (78896, 78904), (92912, 92916), (92976, 92982),
   (92992, 92995), (94031, 94031), (94095, 94111), (94176, 94177), (94179, 94180), (110576, 110579),
   (110581, 110587), (110589, 110590), (113821, 113822), (113824, 113827), (118528, 118573), (118576, 118598),
   (119143, 119145), (119155, 119170), (119173, 119179), (119210, 119213), (119362, 119364), (121344, 121398),
   (121403, 121452), (121461, 121461), (121476, 121476), (121499, 121503), (121505, 121519), (122880, 122886),
   (122888, 122904), (122907, 122913), (122915, 122916), (122918, 122922), (123184, 123197), (123566, 123566),
   (123628, 123631), (125136, 125142), (125252, 125259), (127995, 127999), (917505, 917505), (917536, 917631),
   (917760, 917999)]

/-- Membership test for the Cased property. -/
def isCasedChar (c : Nat) : Bool :=
  casedRanges.any (fun r => r.1 ≤ c && c ≤ r.2)

/-- Membership test for the Case_Ignorable property. -/
def isCaseIgnorableChar (c : Nat) : Bool :=
  caseIgnorableRanges.any (fun r => r.1 ≤ c && c ≤ r.2)

/-- The context-free lowercase expansion of one code point: the table
mapping plus the single unconditional multi-character mapping U+0130 ->
U+0069 U+0307 of SpecialCasing; unmapped code points are fixed. -/
def lowerChar (c : Nat) : List Nat :=
  if c == 304 then [105, 775]
  else
    match lowerTable.find? (fun p => p.1 == c) with
    | some p => [p.2]
    | none => [c]

/-- The After part of the Final_Sigma condition: the remaining text starts
with zero or more case-ignorable code points followed by a cased one (then
the sigma is not final). -/
def finalSigmaAfter (rest : List Nat) : Bool :=
  match rest.dropWhile isCaseIgnorableChar with
  | [] => false
  | c :: _ => isCasedChar c

/-- Updating the Before part of the Final_Sigma condition after reading one
code point: a case-ignorable point keeps the flag, any other point sets it
to whether that point is cased. -/
def sigmaBeforeNext (beforeSigma : Bool) (c : Nat) : Bool :=
  if isCaseIgnorableChar c then beforeSigma else isCasedChar c

/-- String.prototype.toLowerCase is the Unicode Default Case Conversion
toLowercase.  The flag carries the Before part of the Final_Sigma
condition: whether the text read so far ends in a cased code point followed
by zero or more case-ignorable ones.  A capital sigma U+03A3 in final
position maps to U+03C2; every other code point goes through lowerChar. -/
def toLowerCaseAux (beforeSigma : Bool) : List Nat → List Nat
  | [] => []
  | c :: rest =>
    if c == 931 && beforeSigma && !finalSigmaAfter rest then
      962 :: toLowerCaseAux (sigmaBeforeNext beforeSigma c) rest
    else
      lowerChar c ++ toLowerCaseAux (sigmaBeforeNext beforeSigma c) rest

/-- questionText.toLowerCase(). -/
def toLowerCase (s : List Nat) : List Nat := toLowerCaseAux false s

/-- The characters removed by replace(/[?.,!]/g, ''): question mark 63,
full stop 46, comma 44, exclamation mark 33. -/
def isPunctChar (c : Nat) : Bool := c == 63 || c == 46 || c == 44 || c == 33

/-- The code points matched by the regex class \s (JavaScript whitespace). -/
def isWsChar (c : Nat) : Bool :=
  c == 32 || c == 9 || c == 10 || c == 11 || c == 12 || c == 13 ||
  c == 160 || c == 5760 || decide (8192 ≤ c ∧ c ≤ 8202) || c == 8232 ||
  c == 8233 || c == 8239 || c == 8287 || c == 12288 || c == 65279

/-- replace(/\s+/g, ' ') as a left-to-right scan; the flag records whether the
previous character belonged to a whitespace run that has already emitted its
single replacement space. -/
def collapseAux : Bool → List Nat → List Nat
  | _, [] => []
  | prevWs, c :: rest =>
    if isWsChar c then
      if prevWs then collapseAux true rest
      else 32 :: collapseAux true rest
    else c :: collapseAux false rest

/-- replace(/\s+/g, ' '): every maximal whitespace run becomes one space. -/
def collapseWs (l : List Nat) : List Nat := collapseAux false l

/-- String.prototype.trim: strip whitespace from both ends. -/
def trimWs (l : List Nat) : List Nat :=
  ((l.dropWhile isWsChar).reverse.dropWhile isWsChar).reverse

/-- The normalization pipeline of hashQuestion, before the digest. -/
def normalizeQuestion (q : List Nat) : List Nat :=
  trimWs (collapseWs ((toLowerCase q).filter (fun c => !isPunctChar c)))

/-! ### SHA-256 (crypto.createHash('sha256'), bytes in, lowercase hex out) -/

/-- Truncation to a 32-bit word. -/
def w32 (n : Nat) : Nat := n % 4294967296

/-- Truncation to a byte. -/
def byte8 (n : Nat) : Nat := n % 256

/-- Right rotation of a 32-bit word. -/
def rotr32 (n x : Nat) : Nat := w32 ((x >>> n) ||| (x <<< (32 - n)))

def shaCh (x y z : Nat) : Nat := (x &&& y) ^^^ ((x ^^^ 4294967295) &&& z)

def shaMaj (x y z : Nat) : Nat := (x &&& y) ^^^ (x &&& z) ^^^ (y &&& z)

def bSig0 (x : Nat) : Nat := rotr32 2 x ^^^ rotr32 13 x ^^^ rotr32 22 x

def bSig1 (x : Nat) : Nat := rotr32 6 x ^^^ rotr32 11 x ^^^ rotr32 25 x

def sSig0 (x : Nat) : Nat := rotr32 7 x ^^^ rotr32 18 x ^^^ (x >>> 3)

def sSig1 (x : Nat) : Nat := rotr32 17 x ^^^ rotr32 19 x ^^^ (x >>> 10)

/-- The 64 SHA-256 round constants (decimal). -/
def shaK : List Nat :=
  [1116352408, 1899447441, 3049323471, 3921009573, 961987163, 1508970993,
   2453635748, 2870763221, 3624381080, 310598401, 607225278, 1426881987,
   1925078388, 2162078206, 2614888103, 3248222580, 3835390401, 4022224774,
   264347078, 604807628, 770255983, 1249150122, 1555081692, 1996064986,
   2554220882, 2821834349, 2952996808, 3210313671, 3336571891, 3584528711,
   113926993, 338241895, 666307205, 773529912, 1294757372, 1396182291,
   1695183700, 1986661051, 2177026350, 2456956037, 2730485921, 2820302411,
   3259730800, 3345764771, 3516065817, 3600352804, 4094571909, 275423344,
   430227734, 506948616, 659060556, 883997877, 958139571, 1322822218,
   1537002063, 1747873779, 1955562222, 2024104815, 2227730452, 2361852424,
   2428436474, 2756734187, 3204031479, 3329325298]

/-- The SHA-256 initial hash value (decimal). -/
def shaH0 : List Nat :=
  [1779033703, 3144134277, 1013904242, 2773480762,
   1359893119, 2600822924, 528734635, 1541459225]

/-- SHA-256 padding: 0x80, zeros to 56 mod 64, then the 64-bit bit length. -/
def padMessage (ms : List Nat) : List Nat :=
  let L := ms.length
  let zeros := (119 - L % 64) % 64
  let bitLen := L * 8
  ms ++ [128] ++ List.replicate zeros 0 ++
    [byte8 (bitLen >>> 56), byte8 (bitLen >>> 48), byte8 (bitLen >>> 40),
     byte8 (bitLen >>> 32), byte8 (bitLen >>> 24), byte8 (bitLen >>> 16),
     byte8 (bitLen >>> 8), byte8 bitLen]

/-- Big-endian grouping of bytes into 32-bit words. -/
def bytesToWords : List Nat → List Nat
  | a :: b :: c :: d :: rest => (((a * 256 + b) * 256 + c) * 256 + d) :: bytesToWords rest
  | _ => []

/-- Message-schedule extension: push n further words W[t] for t ≥ 16. -/
def extendW (acc : Array Nat) : Nat → Array Nat
  | 0 => acc
  | n + 1 =>
    let k := acc.size
    extendW (acc.push (w32 (sSig1 (acc.getD (k - 2) 0) + acc.getD (k - 7) 0 +
      sSig0 (acc.getD (k - 15) 0) + acc.getD (k - 16) 0))) n

/-- The eight 32-bit working variables of the compression function. -/
structure Hash8 where
  a : Nat
  b : Nat
  c : Nat
  d : Nat
  e : Nat
  f : Nat
  g : Nat
  h : Nat
  deriving DecidableEq, Repr

/-- One SHA-256 compression round; kw is the pair (K[t], W[t]). -/
def shaRound (st : Hash8) (kw : Nat × Nat) : Hash8 :=
  let t1 := w32 (st.h + bSig1 st.e + shaCh st.e st.f st.g + kw.1 + kw.2)
  let t2 := w32 (bSig0 st.a + shaMaj st.a st.b st.c)
  ⟨w32 (t1 + t2), st.a, st.b, st.c, w32 (st.d + t1), st.e, st.f, st.g⟩

/-- Compress one 64-byte block into the running hash (eight words). -/
def processBlock (H : List Nat) (block : List Nat) : List Nat :=
  let ws := extendW (bytesToWords block).toArray 48
  let st0 : Hash8 := ⟨H.getD 0 0, H.getD 1 0, H.getD 2 0, H.getD 3 0,
                      H.getD 4 0, H.getD 5 0, H.getD 6 0, H.getD 7 0⟩
  let st := (shaK.zip ws.toList).foldl shaRound st0
  [w32 (H.getD 0 0 + st.a), w32 (H.getD 1 0 + st.b), w32 (H.getD 2 0 + st.c),
   w32 (H.getD 3 0 + st.d), w32 (H.getD 4 0 + st.e), w32 (H.getD 5 0 + st.f),
   w32 (H.getD 6 0 + st.g), w32 (H.getD 7 0 + st.h)]

/-- Fold the compression function over consecutive 64-byte blocks. -/
def processBlocks (H : List Nat) (l : List Nat) : List Nat :=
  if h : l = [] then H
  else processBlocks (processBlock H (l.take 64)) (l.drop 64)
termination_by l.length
decreasing_by
  simp only [List.length_drop]
  have : 0 < l.length := List.length_pos.mpr h
  omega

/-- SHA-256 of a byte list, as eight 32-bit words. -/
def sha256words (msg : List Nat) : List Nat := processBlocks shaH0 (padMessage msg)

/-- Lowercase hexadecimal digit. -/
def hexDigitChar (n : Nat) : Char :=
  if n < 10 then Char.ofNat (48 + n) else Char.ofNat (87 + n)

/-- Eight lowercase hex digits of one 32-bit word. -/
def wordHex (x : Nat) : List Char :=
  [hexDigitChar ((x >>> 28) &&& 15), hexDigitChar ((x >>> 24) &&& 15),
   hexDigitChar ((x >>> 20) &&& 15), hexDigitChar ((x >>> 16) &&& 15),
   hexDigitChar ((x >>> 12) &&& 15), hexDigitChar ((x >>> 8) &&& 15),
   hexDigitChar ((x >>> 4) &&& 15), hexDigitChar (x &&& 15)]

/-- digest('hex'): the 64-character lowercase hex rendering. -/
def sha256hex (msg : List Nat) : String :=
  String.mk ((sha256words msg).foldr (fun w acc => wordHex w ++ acc) [])

/-- UTF-8 bytes of one code point (crypto's update encodes strings as UTF-8). -/
def utf8EncodeChar (c : Nat) : List Nat :=
  if c < 128 then [c]
  else if c < 2048 then [192 + c / 64, 128 + c % 64]
  else if c < 65536 then [224 + c / 4096, 128 + c / 64 % 64, 128 + c % 64]
  else [240 + c / 262144, 128 + c / 4096 % 64, 128 + c / 64 % 64, 128 + c % 64]

/-- UTF-8 bytes of a code-point list. -/
def utf8Encode (s : List Nat) : List Nat := (s.map utf8EncodeChar).flatten

/-- AISifuStore.hashQuestion: normalize, then SHA-256, rendered as hex. -/
def hashQuestion (q : List Nat) : String := sha256hex (utf8Encode (normalizeQuestion q))

/-- Texts that differ only in the lengths of their whitespace runs: equal
characters are copied in lock step, and a whitespace character may occur
repeated more times on one side than on the other. -/
inductive WsRunEq : List Nat → List Nat → Prop
  | nil : WsRunEq [] []
  | copy (c : Nat) {s t : List Nat} : WsRunEq s t → WsRunEq (c :: s) (c :: t)
  | pumpL (c : Nat) {s t : List Nat} : isWsChar c = true → WsRunEq (c :: s) t →
      WsRunEq (c :: c :: s) t
  | pumpR (c : Nat) {s t : List Nat} : isWsChar c = true → WsRunEq s (c :: t) →
      WsRunEq s (c :: c :: t)

/-! ## Usage accounts (table ai_usage_tracking, one row per user and period) -/

/-- One ai_usage_tracking row for a fixed (user_id, period_start):
course_purchases_usage is the JSONB object mapping course ids to counts. -/
structure UsageAccount where
  course_purchases_usage : List (Nat × Nat)
  subscription_usage : Nat
  total_cost_cents : Nat
  deriving DecidableEq, Repr

/-- createUsageRecord inserts ('{}', 0, 0). -/
def freshAccount : UsageAccount := ⟨[], 0, 0⟩

/-- JSON object read usage.course_purchases_usage[courseId] || 0. -/
def lookupUsage (m : List (Nat × Nat)) (cid : Nat) : Nat :=
  match m.find? (fun p => p.1 == cid) with
  | some p => p.2
  | none => 0

/-- JSON object write courseUsage[courseId] = v (update in place or append). -/
def setUsage (m : List (Nat × Nat)) (cid v : Nat) : List (Nat × Nat) :=
  match m with
  | [] => [(cid, v)]
  | (k, w) :: rest => if k == cid then (cid, v) :: rest else (k, w) :: setUsage rest cid v

/-- JavaScript truthiness of the optional numeric courseId argument
(null/undefined and 0 are falsy). -/
def truthy : Option Nat → Bool
  | none => false
  | some n => n != 0

/-! ## Quota policy: AISifuStore.canUserAsk (models/aiSifu.js) -/

/-- The object canUserAsk resolves with: canAsk plus the optional
reason/limit/used/courseId/message fields that the handler copies into the
403 response. -/
structure AccessCheck where
  canAsk : Bool
  reason : String
  limit : Option Nat := none
  used : Option Nat := none
  courseId : Option Nat := none
  message : Option String := none
  deriving DecidableEq, Repr

/-- The user-visible fields the quota decision is specified by (everything
but the auxiliary message text). -/
def decisionCore (a : AccessCheck) : Bool × String × Option Nat × Option Nat × Option Nat :=
  (a.canAsk, a.reason, a.limit, a.used, a.courseId)

/-- AISifuStore.canUserAsk as a pure decision function over the externally
resolved facts (is_admin, active subscription, completed purchase) and the
current usage row.  Mirrors the source's control flow: admin first, then the
subscription branch, then the if (courseId) purchase branch, then no_access. -/
def canUserAsk (is_admin hasActiveSubscription : Bool)
    (hasCompletedPurchase : Nat → Bool) (usage : UsageAccount)
    (courseId : Option Nat) : AccessCheck :=
  if is_admin then
    { canAsk := true, reason := "admin_unlimited" }
  else if hasActiveSubscription then
    if 100 ≤ usage.subscription_usage then
      { canAsk := false, reason := "subscription_limit_reached",
        limit := some 100, used := some usage.subscription_usage }
    else
      { canAsk := true, reason := "subscription_access" }
  else if truthy courseId && hasCompletedPurchase (courseId.getD 0) then
    let courseUsage := lookupUsage usage.course_purchases_usage (courseId.getD 0)
    if 10 ≤ courseUsage then
      { canAsk := false, reason := "course_limit_reached", courseId := courseId,
        limit := some 10, used := some courseUsage }
    else
      { canAsk := true, reason := "course_purchase_access" }
  else
    { canAsk := false, reason := "no_access",
      message := some "Purchase a course or subscribe to access AI Sifu" }

/-- Modelled from the spec: the four-rule first-match decision procedure of
claim C1 (spec section 4.4), written independently of the source to be
compared with canUserAsk. -/
def quotaPolicySpec (is_admin hasActiveSubscription : Bool)
    (hasCompletedPurchase : Nat → Bool) (usage : UsageAccount)
    (courseId : Option Nat) : AccessCheck :=
  if is_admin then
    { canAsk := true, reason := "admin_unlimited" }
  else if hasActiveSubscription then
    if 100 ≤ usage.subscription_usage then
      { canAsk := false, reason := "subscription_limit_reached",
        limit := some 100, used := some usage.subscription_usage }
    else
      { canAsk := true, reason := "subscription_access" }
  else
    match courseId with
    | some c =>
      if hasCompletedPurchase c then
        if 10 ≤ lookupUsage usage.course_purchases_usage c then
          { canAsk := false, reason := "course_limit_reached", courseId := some c,
            limit := some 10, used := some (lookupUsage usage.course_purchases_usage c) }
        else
          { canAsk := true, reason := "course_purchase_access" }
      else
        { canAsk := false, reason := "no_access" }
    | none => { canAsk := false, reason := "no_access" }

/-! ## Usage increments: AISifuStore.recordUsage (models/aiSifu.js)

The course branch is a read-modify-write: it reads the whole JSONB map via
getUserUsage, bumps the one key in process memory, and writes the whole map
back; only total_cost_cents is incremented server-side.  The subscription
branch increments both counters server-side in one UPDATE.  The two phases
of the course branch are modelled separately so that interleavings of
concurrent calls can be expressed. -/

/-- Phase 1 of the course branch: the snapshot of the JSONB map the
in-flight call works on (usage.course_purchases_usage || {}). -/
def recordUsageRead (acct : UsageAccount) : List (Nat × Nat) := acct.course_purchases_usage

/-- Phase 2 of the course branch: UPDATE ... SET course_purchases_usage = $1,
total_cost_cents = total_cost_cents + $2 where $1 was computed from the
snapshot.  The map overwrites whatever is stored; the cost addition is
server-side. -/
def recordUsageWrite (acct : UsageAccount) (snapshot : List (Nat × Nat))
    (courseId costCents : Nat) : UsageAccount :=
  { acct with
    course_purchases_usage := setUsage snapshot courseId (lookupUsage snapshot courseId + 1),
    total_cost_cents := acct.total_cost_cents + costCents }

/-- AISifuStore.recordUsage run without interference (its read immediately
followed by its write). -/
def recordUsage (acct : UsageAccount) (costCents : Nat) (courseId : Option Nat) : UsageAccount :=
  if truthy courseId then
    recordUsageWrite acct (recordUsageRead acct) (courseId.getD 0) costCents
  else
    { acct with
      subscription_usage := acct.subscription_usage + 1,
      total_cost_cents := acct.total_cost_cents + costCents }

/-- Two concurrent recordUsage(userId, 2, courseId = 7) calls on a fresh
account, interleaved read-read-write-write: both calls snapshot the empty
JSONB map before either writes its bumped copy back. -/
def lostUpdateRun : UsageAccount :=
  let snapA := recordUsageRead freshAccount
  let afterA := recordUsageWrite freshAccount snapA 7 2
  let snapB := recordUsageRead freshAccount
  recordUsageWrite afterA snapB 7 2

/-- The same two calls run back to back without interference. -/
def sequentialRun : UsageAccount :=
  recordUsage (recordUsage freshAccount 2 (some 7)) 2 (some 7)

/-! ## Response cache (table ai_response_cache, unique on question_hash) -/

/-- One ai_response_cache row.  response_data holds the JSON-serialized
agent payload (opaque here); timestamps are epoch milliseconds. -/
structure CacheEntry where
  question_hash : String
  question_text : List Nat
  response_data : String
  usage_count : Nat
  created_at : Nat
  expires_at : Nat
  deriving DecidableEq, Repr

/-- Date arithmetic expiresAt.setDate(getDate() + d): d days in ms. -/
def addDays (t d : Nat) : Nat := t + d * 86400000

/-- AISifuStore.incrementCacheUsage: UPDATE ai_response_cache SET
usage_count = usage_count + 1 WHERE question_hash = $1. -/
def incrementCacheUsage (cache : List CacheEntry) (questionHash : String) : List CacheEntry :=
  cache.map fun e =>
    if e.question_hash == questionHash then { e with usage_count := e.usage_count + 1 } else e

/-- AISifuStore.getCachedResponse: SELECT * WHERE question_hash = $1 AND
expires_at > CURRENT_TIMESTAMP; on a hit the usage count is incremented and
the selected row (pre-increment) is returned.  Returns the result together
with the cache after the hit-count update. -/
def getCachedResponse (cache : List CacheEntry) (now : Nat) (questionText : List Nat) :
    Option CacheEntry × List CacheEntry :=
  let questionHash := hashQuestion questionText
  match cache.find? (fun e => e.question_hash == questionHash && now < e.expires_at) with
  | some e => (some e, incrementCacheUsage cache questionHash)
  | none => (none, cache)

/-- AISifuStore.cacheResponse with the TTL as a parameter: INSERT ... ON
CONFLICT (question_hash) DO UPDATE SET response_data = EXCLUDED.response_data,
usage_count = usage_count + 1, expires_at = EXCLUDED.expires_at.  A fresh
insert takes the column defaults usage_count = 1 and created_at = now. -/
def cacheResponseTTL (cache : List CacheEntry) (now : Nat) (questionText : List Nat)
    (responseData : String) (ttlDays : Nat) : List CacheEntry :=
  let questionHash := hashQuestion questionText
  let expiresAt := addDays now ttlDays
  if cache.any (fun e => e.question_hash == questionHash) then
    cache.map fun e =>
      if e.question_hash == questionHash then
        { e with response_data := responseData, usage_count := e.usage_count + 1,
                 expires_at := expiresAt }
      else e
  else
    cache ++ [{ question_hash := questionHash, question_text := questionText,
                response_data := responseData, usage_count := 1,
                created_at := now, expires_at := expiresAt }]

/-- AISifuStore.cacheResponse: the regular put, hard-coded 7-day TTL. -/
def cacheResponse (cache : List CacheEntry) (now : Nat) (questionText : List Nat)
    (responseData : String) : List CacheEntry :=
  cacheResponseTTL cache now questionText responseData 7

/-- CacheWarmer.preCacheQuestion's inline upsert (scripts/cache-warmer.js):
INSERT INTO ai_response_cache (question_hash, question_text, response_data,
expires_at, usage_count) VALUES (..., 0) ON CONFLICT (question_hash) DO
UPDATE SET response_data = EXCLUDED.response_data, expires_at =
EXCLUDED.expires_at, updated_at = CURRENT_TIMESTAMP, with expires_at =
now + 10 days.  The ai_response_cache table (migration 20250628183622)
declares no updated_at column, and Postgres resolves the DO UPDATE SET
target columns during parse analysis, so the statement fails on every
execution, conflict or not: the warming write never writes. -/
def preCacheWrite (_cache : List CacheEntry) (_now : Nat) (_questionText : List Nat)
    (_responseData : String) : Except String (List CacheEntry) :=
  .error "column updated_at of relation ai_response_cache does not exist"

/-- CacheWarmer.preCacheQuestion: consult the cache first (the read bumps
the hit counter on a hit) and skip when already cached and unexpired;
otherwise invoke the agent and attempt the upsert above, whose failure is
caught and reported as an unsuccessful result.  Returns the pair
(success, skipped) together with the cache after the call. -/
def preCacheQuestion (cache : List CacheEntry) (now : Nat) (questionText : List Nat)
    (engineResponse : String) : (Bool × Bool) × List CacheEntry :=
  let got := getCachedResponse cache now questionText
  match got.1 with
  | some _ => ((true, true), got.2)
  | none =>
    match preCacheWrite cache now questionText engineResponse with
    | .ok cache2 => ((true, false), cache2)
    | .error _ => ((false, false), cache)

/-! ## Storage-failure behavior of the cache operations

Each store method wraps its queries in try/catch.  getCachedResponse and
cacheResponse rethrow a wrapped error; incrementCacheUsage alone catches and
only logs ("Don't throw error for cache usage updates").  The flags say
whether the respective query's storage round-trip fails. -/

/-- incrementCacheUsage under a possible storage failure: the error is
swallowed, so the call always "succeeds"; on failure the table is simply
left as it was. -/
def incrementCacheUsageE (incFails : Bool) (cache : List CacheEntry)
    (questionHash : String) : List CacheEntry :=
  if incFails then cache else incrementCacheUsage cache questionHash

/-- getCachedResponse under possible storage failures: a failing SELECT is
rethrown as a wrapped error; a failing hit-count UPDATE is swallowed inside
incrementCacheUsage and the hit is still returned. -/
def getCachedResponseE (selectFails incFails : Bool) (cache : List CacheEntry)
    (now : Nat) (questionText : List Nat) :
    Except String (Option CacheEntry × List CacheEntry) :=
  if selectFails then .error "Could not get cached response"
  else
    let questionHash := hashQuestion questionText
    match cache.find? (fun e => e.question_hash == questionHash && now < e.expires_at) with
    | some e => .ok (some e, incrementCacheUsageE incFails cache questionHash)
    | none => .ok (none, cache)

/-- cacheResponse under a possible storage failure: a failing upsert is
rethrown as a wrapped error. -/
def cacheResponseE (writeFails : Bool) (cache : List CacheEntry) (now : Nat)
    (questionText : List Nat) (responseData : String) :
    Except String (List CacheEntry) :=
  if writeFails then .error "Could not cache response"
  else .ok (cacheResponse cache now questionText responseData)

/-! ## The ask endpoint: handlers/ai-sifu.js askQuestion

The handler validates, authorizes via canUserAsk (which lazily creates the
period's usage row through getUserUsage), invokes the agent (the cache path
is disabled in the source: cached is always false), and only then records
usage and analytics.  The agent is an external collaborator: its outcome for
this request is passed in as an Except value, and its cost estimate as a
function of the successful response. -/

/-- One ai_question_analytics row. -/
structure AnalyticsRecord where
  user_id : Nat
  question_text : List Nat
  response_cached : Bool
  cost_cents : Nat
  response_time_ms : Nat
  course_context : Option Nat
  deriving DecidableEq, Repr

/-- The persistent state the AI Sifu operations touch, for the fixed current
period: usage rows keyed by user id, the response cache, and the analytics
log. -/
structure SifuState where
  accounts : List (Nat × UsageAccount)
  cache : List CacheEntry
  analytics : List AnalyticsRecord
  deriving DecidableEq, Repr

/-- AISifuStore.getUserUsage: return the user's row for the current period,
lazily inserting a zeroed row (createUsageRecord) if none exists. -/
def getUserUsage (accounts : List (Nat × UsageAccount)) (userId : Nat) :
    UsageAccount × List (Nat × UsageAccount) :=
  match accounts.find? (fun p => p.1 == userId) with
  | some p => (p.2, accounts)
  | none => (freshAccount, accounts ++ [(userId, freshAccount)])

/-- The usage counters the system currently holds for a user: the stored
row, or an all-zero view when no row exists yet for the period. -/
def countersOf (accounts : List (Nat × UsageAccount)) (userId : Nat) : UsageAccount :=
  ((accounts.find? (fun p => p.1 == userId)).map Prod.snd).getD freshAccount

/-- AISifuStore.canUserAsk at the storage level: the admin check returns
before getUserUsage runs; otherwise the usage row is fetched (and lazily
created) and the pure decision is taken on it. -/
def canUserAskS (userId : Nat) (is_admin hasActiveSubscription : Bool)
    (hasCompletedPurchase : Nat → Bool) (courseId : Option Nat)
    (accounts : List (Nat × UsageAccount)) : AccessCheck × List (Nat × UsageAccount) :=
  if is_admin then
    ({ canAsk := true, reason := "admin_unlimited" }, accounts)
  else
    let fetched := getUserUsage accounts userId
    (canUserAsk is_admin hasActiveSubscription hasCompletedPurchase fetched.1 courseId,
     fetched.2)

/-- AISifuStore.recordUsage at the storage level: getUserUsage (lazy create)
followed by the UPDATE of that user's row. -/
def recordUsageS (accounts : List (Nat × UsageAccount)) (userId costCents : Nat)
    (courseId : Option Nat) : List (Nat × UsageAccount) :=
  let accounts1 := (getUserUsage accounts userId).2
  accounts1.map fun p =>
    if p.1 == userId then (p.1, recordUsage p.2 costCents courseId) else p

/-- validateAIQuestion (models/aiSifu.js): question is a required string of
length 5..500; course_id, when present, must be a positive integer (null
allowed).  True means validation passed. -/
def validateAIQuestion (question : List Nat) (course_id : Option Nat) : Bool :=
  decide (5 ≤ question.length) && decide (question.length ≤ 500) &&
    (match course_id with
     | none => true
     | some c => decide (0 < c))

/-- The structured payload the NeigongManualAgent resolves with. -/
structure AgentResponse where
  response : String
  terms_used : List String
  manual_sections : List String
  classical_references : List String
  deriving DecidableEq, Repr

/-- The HTTP outcome of POST /ai-sifu/ask. -/
inductive AskResult where
  | badRequest (error : String)
  | forbidden (check : AccessCheck)
  | serverError (error : String)
  | ok (response : AgentResponse) (cached : Bool) (response_time_ms cost_cents : Nat)
  deriving DecidableEq, Repr

/-- handlers/ai-sifu.js askQuestion: validate, authorize (canUserAsk), then
generate (cache disabled: cached = false, no cache read or write), then
recordUsage and recordQuestion, in the source's order.  engineResult is the
outcome of agent.handleQuery(question) for this request; estCost is
agent.estimateResponseCost applied to the successful response;
responseTime stands for Date.now() - startTime. -/
def askQuestion (userId : Nat) (is_admin hasActiveSubscription : Bool)
    (hasCompletedPurchase : Nat → Bool) (question : List Nat)
    (course_id : Option Nat) (engineResult : Except String AgentResponse)
    (estCost : AgentResponse → Nat) (responseTime : Nat)
    (st : SifuState) : AskResult × SifuState :=
  if !validateAIQuestion question course_id then
    (.badRequest "Invalid question", st)
  else
    let checked := canUserAskS userId is_admin hasActiveSubscription
      hasCompletedPurchase course_id st.accounts
    let check := checked.1
    let st1 := { st with accounts := checked.2 }
    if !check.canAsk then
      (.forbidden check, st1)
    else
      match engineResult with
      | .error _ => (.serverError "Failed to generate AI response", st1)
      | .ok response =>
        let costCents := estCost response
        let accounts2 := recordUsageS st1.accounts userId costCents course_id
        let record : AnalyticsRecord :=
          ⟨userId, question, false, costCents, responseTime, course_id⟩
        (.ok response false responseTime costCents,
         { st1 with accounts := accounts2, analytics := st1.analytics ++ [record] })

/-! # Theorems -/

/-! ## C1: the quota decision procedure -/

/-- C1. For every user and optional course context (course ids are positive,
as validateAIQuestion and the SERIAL schema guarantee), canUserAsk takes the
four rules of the spec in order, first match winning, reporting the claimed
reasons, limits, used counts and course id; and a user with an active
subscription is never routed to the course-purchase rule. -/
theorem c1_quota_decision (is_admin hasActiveSubscription : Bool)
    (hasCompletedPurchase : Nat → Bool) (usage : UsageAccount)
    (courseId : Option Nat) (hcid : ∀ c, courseId = some c → 0 < c) :
    decisionCore (canUserAsk is_admin hasActiveSubscription hasCompletedPurchase
        usage courseId)
      = decisionCore (quotaPolicySpec is_admin hasActiveSubscription
        hasCompletedPurchase usage courseId)
    ∧ (hasActiveSubscription = true →
        (canUserAsk is_admin hasActiveSubscription hasCompletedPurchase
            usage courseId).reason ≠ "course_limit_reached"
        ∧ (canUserAsk is_admin hasActiveSubscription hasCompletedPurchase
            usage courseId).reason ≠ "course_purchase_access") := by
  cases is_admin with
  | true => exact ⟨rfl, fun _ => by simp [canUserAsk]⟩
  | false =>
    cases hsub : hasActiveSubscription with
    | true =>
      refine ⟨?_, fun _ => ?_⟩
      · by_cases hlim : 100 ≤ usage.subscription_usage <;>
          simp [canUserAsk, quotaPolicySpec, hlim]
      · by_cases hlim : 100 ≤ usage.subscription_usage <;>
          simp [canUserAsk, hlim]
    | false =>
      refine ⟨?_, fun h => by exact absurd h (by simp)⟩
      cases courseId with
      | none => simp [canUserAsk, quotaPolicySpec, truthy, decisionCore]
      | some c =>
        have hc : 0 < c := hcid c rfl
        have hct : (c != 0) = true := by simpa using Nat.pos_iff_ne_zero.mp hc
        by_cases hp : hasCompletedPurchase c
        · by_cases hl : 10 ≤ lookupUsage usage.course_purchases_usage c <;>
            simp [canUserAsk, quotaPolicySpec, truthy, decisionCore, hp, hct, hl]
        · simp [canUserAsk, quotaPolicySpec, truthy, decisionCore, hp, hct]

/-- Closed instance of c1_quota_decision: a subscribed purchaser of course 7
at the subscription limit. -/
theorem c1_quota_decision_witness :
    decisionCore (canUserAsk false true (fun _ => true) ⟨[], 100, 0⟩ (some 7))
      = decisionCore (quotaPolicySpec false true (fun _ => true) ⟨[], 100, 0⟩ (some 7))
    ∧ (true = true →
        (canUserAsk false true (fun _ => true) ⟨[], 100, 0⟩ (some 7)).reason
            ≠ "course_limit_reached"
        ∧ (canUserAsk false true (fun _ => true) ⟨[], 100, 0⟩ (some 7)).reason
            ≠ "course_purchase_access") :=
  c1_quota_decision false true (fun _ => true) ⟨[], 100, 0⟩ (some 7)
    (fun c hc => by cases hc; decide)

/-! ## C3: concurrent course-usage increments lose updates -/

/-- C3 (failing run). The course branch of recordUsage is a read-modify-write
of the whole JSONB map: when two concurrent calls for course 7 both read the
fresh account before either writes, the final count is 1, not the 2 the claim
requires, while the same two calls run sequentially do yield 2. -/
theorem c3_lost_update :
    lookupUsage lostUpdateRun.course_purchases_usage 7 = 1
    ∧ lookupUsage sequentialRun.course_purchases_usage 7 = 2 := by decide

/-! ## C4: sequential increment semantics of recordUsage -/

/-- Reading back the key just written into the JSONB map. -/
theorem lookupUsage_setUsage_same (m : List (Nat × Nat)) (cid v : Nat) :
    lookupUsage (setUsage m cid v) cid = v := by
  induction m with
  | nil => simp [setUsage, lookupUsage]
  | cons p rest ih =>
    obtain ⟨k, w⟩ := p
    by_cases h : k = cid
    · subst h; simp [setUsage, lookupUsage]
    · have hk : (k == cid) = false := beq_eq_false_iff_ne.mpr h
      simpa [setUsage, lookupUsage, List.find?, hk, h] using ih

/-- Writing one key of the JSONB map leaves every other key unchanged. -/
theorem lookupUsage_setUsage_ne (m : List (Nat × Nat)) (cid v c : Nat) (h : c ≠ cid) :
    lookupUsage (setUsage m cid v) c = lookupUsage m c := by
  have hcc : (cid == c) = false := beq_eq_false_iff_ne.mpr (Ne.symm h)
  induction m with
  | nil => simp [setUsage, lookupUsage, List.find?, hcc]
  | cons p rest ih =>
    obtain ⟨k, w⟩ := p
    by_cases hk : k = cid
    · subst hk
      simp [setUsage, lookupUsage, List.find?, hcc]
    · have hk2 : (k == cid) = false := beq_eq_false_iff_ne.mpr hk
      by_cases hkc : k = c
      · subst hkc
        simp [setUsage, lookupUsage, List.find?, hk2]
      · have hk3 : (k == c) = false := beq_eq_false_iff_ne.mpr hkc
        simpa [setUsage, lookupUsage, List.find?, hk2, hk3] using ih

/-- C4. A lone recordUsage call with a (positive) course id bumps exactly
that course counter by 1, leaves every other course counter and the
subscription counter alone, and adds costCents to the cost; with courseId
null it bumps only the subscription counter and adds the cost. -/
theorem c4_recordUsage_sequential (acct : UsageAccount) (costCents cid c : Nat)
    (hcid : 0 < cid) (hne : c ≠ cid) :
    lookupUsage (recordUsage acct costCents (some cid)).course_purchases_usage cid
        = lookupUsage acct.course_purchases_usage cid + 1
    ∧ lookupUsage (recordUsage acct costCents (some cid)).course_purchases_usage c
        = lookupUsage acct.course_purchases_usage c
    ∧ (recordUsage acct costCents (some cid)).subscription_usage = acct.subscription_usage
    ∧ (recordUsage acct costCents (some cid)).total_cost_cents
        = acct.total_cost_cents + costCents
    ∧ (recordUsage acct costCents none).subscription_usage = acct.subscription_usage + 1
    ∧ (recordUsage acct costCents none).course_purchases_usage = acct.course_purchases_usage
    ∧ (recordUsage acct costCents none).total_cost_cents
        = acct.total_cost_cents + costCents := by
  have hct : (cid != 0) = true := by simpa using Nat.pos_iff_ne_zero.mp hcid
  refine ⟨?_, ?_, ?_, ?_, ?_, ?_, ?_⟩ <;>
    simp [recordUsage, recordUsageWrite, recordUsageRead, truthy, hct,
      lookupUsage_setUsage_same, lookupUsage_setUsage_ne _ _ _ _ hne]

/-- Closed instance of c4_recordUsage_sequential: an account with five
course-3 questions, two subscription questions and 10 cents spent, charged
4 more cents against course 3; course 9 is untouched. -/
theorem c4_recordUsage_sequential_witness :
    lookupUsage (recordUsage ⟨[(3, 5)], 2, 10⟩ 4 (some 3)).course_purchases_usage 3
        = lookupUsage (⟨[(3, 5)], 2, 10⟩ : UsageAccount).course_purchases_usage 3 + 1
    ∧ lookupUsage (recordUsage ⟨[(3, 5)], 2, 10⟩ 4 (some 3)).course_purchases_usage 9
        = lookupUsage (⟨[(3, 5)], 2, 10⟩ : UsageAccount).course_purchases_usage 9
    ∧ (recordUsage ⟨[(3, 5)], 2, 10⟩ 4 (some 3)).subscription_usage
        = (⟨[(3, 5)], 2, 10⟩ : UsageAccount).subscription_usage
    ∧ (recordUsage ⟨[(3, 5)], 2, 10⟩ 4 (some 3)).total_cost_cents
        = (⟨[(3, 5)], 2, 10⟩ : UsageAccount).total_cost_cents + 4
    ∧ (recordUsage ⟨[(3, 5)], 2, 10⟩ 4 none).subscription_usage
        = (⟨[(3, 5)], 2, 10⟩ : UsageAccount).subscription_usage + 1
    ∧ (recordUsage ⟨[(3, 5)], 2, 10⟩ 4 none).course_purchases_usage
        = (⟨[(3, 5)], 2, 10⟩ : UsageAccount).course_purchases_usage
    ∧ (recordUsage ⟨[(3, 5)], 2, 10⟩ 4 none).total_cost_cents
        = (⟨[(3, 5)], 2, 10⟩ : UsageAccount).total_cost_cents + 4 :=
  c4_recordUsage_sequential ⟨[(3, 5)], 2, 10⟩ 4 3 9 (by decide) (by decide)

/-! ## C5 and C6: cache read expiry and put-then-get -/

/-- The result component of getCachedResponse is the first unexpired row for
the question's hash. -/
theorem getCachedResponse_fst (cache : List CacheEntry) (now : Nat) (q : List Nat) :
    (getCachedResponse cache now q).1
      = cache.find? (fun e => e.question_hash == hashQuestion q && now < e.expires_at) := by
  unfold getCachedResponse
  cases h : cache.find? (fun e => e.question_hash == hashQuestion q && now < e.expires_at) <;>
    simp [h]

/-- C5. The cache read returns absent exactly when every row for the
question's key has expires_at ≤ now (in particular when no row exists, or
when the row is expired but not yet swept); an entry is returned only while
its expires_at is strictly in the future. -/
theorem c5_getCachedResponse_expiry (cache : List CacheEntry) (now : Nat) (q : List Nat) :
    ((getCachedResponse cache now q).1 = none ↔
      ∀ e ∈ cache, e.question_hash = hashQuestion q → e.expires_at ≤ now)
    ∧ ∀ e : CacheEntry, (getCachedResponse cache now q).1 = some e →
      e ∈ cache ∧ e.question_hash = hashQuestion q ∧ now < e.expires_at := by
  constructor
  · rw [getCachedResponse_fst, List.find?_eq_none]
    constructor
    · intro hnone e he hh
      have h2 := hnone e he
      simp only [Bool.and_eq_true, beq_iff_eq, decide_eq_true_eq, not_and] at h2
      exact Nat.not_lt.mp (h2 hh)
    · intro hall e he
      simp only [Bool.and_eq_true, beq_iff_eq, decide_eq_true_eq, not_and]
      intro hh
      exact Nat.not_lt.mpr (hall e he hh)
  · intro e hsome
    rw [getCachedResponse_fst] at hsome
    have hp := List.find?_some hsome
    have hm := List.mem_of_find?_eq_some hsome
    simp only [Bool.and_eq_true, beq_iff_eq, decide_eq_true_eq] at hp
    exact ⟨hm, hp.1, hp.2⟩

/-- Closed instance of c5_getCachedResponse_expiry: a single already-expired
row (expires_at 0, read at time 10) is logically absent. -/
theorem c5_getCachedResponse_expiry_witness :
    (getCachedResponse [⟨"h", [], "r", 1, 0, 0⟩] 10 [113, 105]).1 = none :=
  ((c5_getCachedResponse_expiry [⟨"h", [], "r", 1, 0, 0⟩] 10 [113, 105]).1).mpr (by
    intro e he _
    simp only [List.mem_singleton] at he
    subst he
    decide)

/-- C6. A cacheResponse write followed by a read of the same question before
the 7-day TTL elapses is a hit whose response_data is the just-written
payload. -/
theorem c6_put_then_get (cache : List CacheEntry) (now now2 : Nat) (q : List Nat)
    (rd : String) (httl : now2 < addDays now 7) :
    ((getCachedResponse (cacheResponse cache now q rd) now2 q).1).map
        CacheEntry.response_data = some rd := by
  rw [getCachedResponse_fst]
  unfold cacheResponse cacheResponseTTL
  by_cases hany : cache.any (fun e => e.question_hash == hashQuestion q)
  · rw [if_pos hany, List.find?_map]
    have hpf : ((fun e : CacheEntry =>
          e.question_hash == hashQuestion q && decide (now2 < e.expires_at)) ∘
        (fun e : CacheEntry => if e.question_hash == hashQuestion q then
          { e with response_data := rd, usage_count := e.usage_count + 1,
                   expires_at := addDays now 7 }
          else e))
        = fun e : CacheEntry => e.question_hash == hashQuestion q := by
      funext e
      by_cases he : e.question_hash = hashQuestion q
      · simp [Function.comp, he, httl]
      · simp [Function.comp, he]
    rw [hpf]
    obtain ⟨e, hmem, hhash⟩ := List.any_eq_true.mp hany
    cases hfind : cache.find? (fun e => e.question_hash == hashQuestion q) with
    | none =>
      rw [List.find?_eq_none] at hfind
      exact absurd hhash (hfind e hmem)
    | some e0 =>
      have hp0b := List.find?_some hfind
      have hp0 : e0.question_hash = hashQuestion q := beq_iff_eq.mp hp0b
      simp [hp0]
  · rw [if_neg hany, List.find?_append]
    have h1 : cache.find?
        (fun e => e.question_hash == hashQuestion q && now2 < e.expires_at) = none := by
      rw [List.find?_eq_none]
      intro x hx
      have hfalse : (x.question_hash == hashQuestion q) = false := by
        have := List.any_eq_false.mp (Bool.of_not_eq_true hany) x hx
        simpa using this
      simp [hfalse]
    rw [h1]
    simp [List.find?, httl]

/-- Closed instance of c6_put_then_get: write at time 0, read at time 5. -/
theorem c6_put_then_get_witness :
    ((getCachedResponse (cacheResponse [] 0 [113, 105, 63] "resp") 5 [113, 105, 63]).1).map
        CacheEntry.response_data = some "resp" :=
  c6_put_then_get [] 0 5 [113, 105, 63] "resp" (by decide)

/-! ## C7: the warming write vs the regular put -/

/-- A cache read that misses leaves the cache untouched. -/
theorem getCachedResponse_snd_of_none (cache : List CacheEntry) (now : Nat)
    (q : List Nat) (h : (getCachedResponse cache now q).1 = none) :
    (getCachedResponse cache now q).2 = cache := by
  unfold getCachedResponse at h ⊢
  cases hf : cache.find? (fun e => e.question_hash == hashQuestion q && now < e.expires_at) <;>
    simp [hf] at h ⊢

/-- C7 (counterexample). The warming write is not the regular put with a
10-day TTL: already on an empty cache the put inserts a row, while the
warmer's statement fails (its DO UPDATE SET references the nonexistent
updated_at column) and writes nothing. -/
theorem c7_counterexample :
    preCacheWrite [] 0 [113, 105] "r"
      ≠ Except.ok (cacheResponseTTL [] 0 [113, 105] "r" 10) := by
  intro h
  simp [preCacheWrite] at h

/-- C7 (amended). The warming write is a separate inline upsert that, as
written against the ai_response_cache schema, always fails (it targets the
undeclared updated_at column), so it never produces any cache state at all:
preCacheQuestion only ever changes the cache through its initial read's
hit-count bump, and on a cache miss it reports failure and leaves the cache
exactly as it was. -/
theorem c7_warming_write (cache : List CacheEntry) (now : Nat) (q : List Nat)
    (rd : String) :
    preCacheWrite cache now q rd
        = Except.error "column updated_at of relation ai_response_cache does not exist"
    ∧ (preCacheQuestion cache now q rd).2 = (getCachedResponse cache now q).2
    ∧ ((getCachedResponse cache now q).1 = none →
        preCacheQuestion cache now q rd = ((false, false), cache)) := by
  refine ⟨rfl, ?_, ?_⟩
  · unfold preCacheQuestion
    cases hf : (getCachedResponse cache now q).1 with
    | some e => simp [hf]
    | none => simp [hf, preCacheWrite, getCachedResponse_snd_of_none cache now q hf]
  · intro hnone
    unfold preCacheQuestion
    simp [hnone, preCacheWrite]

/-- Closed instance of c7_warming_write: warming an empty cache fails and
leaves the cache empty. -/
theorem c7_warming_write_witness :
    preCacheWrite [] 0 [113, 105] "r"
        = Except.error "column updated_at of relation ai_response_cache does not exist"
    ∧ preCacheQuestion [] 0 [113, 105] "r" = ((false, false), []) :=
  ⟨(c7_warming_write [] 0 [113, 105] "r").1,
   (c7_warming_write [] 0 [113, 105] "r").2.2 rfl⟩

/-! ## C8: storage failures around the cache -/

/-- C8 (counterexample). A storage failure during the cache read is wrapped
and rethrown by getCachedResponse, not degraded to a miss. -/
theorem c8_counterexample :
    getCachedResponseE true false [] 0 [] = Except.error "Could not get cached response"
    ∧ getCachedResponseE true false [] 0 []
        ≠ Except.ok (none, ([] : List CacheEntry)) := by
  refine ⟨rfl, fun h => ?_⟩
  simp [getCachedResponseE] at h

/-- C8 (amended). Only the hit-count increment swallows storage failures:
a failing increment leaves the cache as it was and the read still returns
its result, while a failing cache SELECT or cache write is propagated as a
wrapped error by the store (the current ask path never consults the cache,
so neither reaches a user request). -/
theorem c8_cache_failure_semantics :
    (∀ (incFails : Bool) (cache : List CacheEntry) (now : Nat) (q : List Nat),
        getCachedResponseE true incFails cache now q
          = Except.error "Could not get cached response")
    ∧ (∀ (cache : List CacheEntry) (qh : String), incrementCacheUsageE true cache qh = cache)
    ∧ (∀ (cache : List CacheEntry) (now : Nat) (q : List Nat),
        getCachedResponseE false true cache now q
          = Except.ok ((getCachedResponse cache now q).1, cache))
    ∧ (∀ (cache : List CacheEntry) (now : Nat) (q : List Nat) (rd : String),
        cacheResponseE true cache now q rd = Except.error "Could not cache response") := by
  refine ⟨fun _ _ _ _ => rfl, fun _ _ => rfl, ?_, fun _ _ _ _ => rfl⟩
  intro cache now q
  rw [getCachedResponse_fst]
  unfold getCachedResponseE incrementCacheUsageE
  cases h : cache.find? (fun e => e.question_hash == hashQuestion q && now < e.expires_at) <;>
    simp [h]

/-! ## C9: failed generation records nothing -/

/-- The lazy create inside getUserUsage does not change any user's counters
(an absent row already reads as all zeros). -/
theorem countersOf_getUserUsage (accounts : List (Nat × UsageAccount)) (userId uid : Nat) :
    countersOf (getUserUsage accounts userId).2 uid = countersOf accounts uid := by
  unfold getUserUsage countersOf
  cases hf : accounts.find? (fun p => p.1 == userId) with
  | some p => simp [hf]
  | none =>
    simp only [hf]
    rw [List.find?_append]
    cases hg : accounts.find? (fun p => p.1 == uid) with
    | some p => simp [hg]
    | none =>
      by_cases h : userId = uid
      · subst h
        simp [hg, List.find?]
      · have hb : (userId == uid) = false := beq_eq_false_iff_ne.mpr h
        simp [hg, List.find?, hb]

/-- The quota check's storage effect (at most a lazy zero-row create) leaves
every user's counters unchanged. -/
theorem countersOf_canUserAskS (userId : Nat) (is_admin hasSub : Bool)
    (purch : Nat → Bool) (cid : Option Nat) (accounts : List (Nat × UsageAccount))
    (uid : Nat) :
    countersOf (canUserAskS userId is_admin hasSub purch cid accounts).2 uid
      = countersOf accounts uid := by
  unfold canUserAskS
  cases is_admin <;> simp [countersOf_getUserUsage]

/-- C9. If the agent invocation fails, askQuestion returns the generation
failure and records nothing: every user's usage counters (and cost) are as
before, and the analytics log and cache are untouched — usage is recorded
only after a response is successfully obtained. -/
theorem c9_generation_failure (userId : Nat) (is_admin hasSub : Bool)
    (purch : Nat → Bool) (q : List Nat) (cid : Option Nat) (err : String)
    (estCost : AgentResponse → Nat) (rt : Nat) (st : SifuState) (uid : Nat)
    (hv : validateAIQuestion q cid = true)
    (hc : (canUserAskS userId is_admin hasSub purch cid st.accounts).1.canAsk = true) :
    (askQuestion userId is_admin hasSub purch q cid (.error err) estCost rt st).1
        = .serverError "Failed to generate AI response"
    ∧ countersOf (askQuestion userId is_admin hasSub purch q cid (.error err)
        estCost rt st).2.accounts uid = countersOf st.accounts uid
    ∧ (askQuestion userId is_admin hasSub purch q cid (.error err)
        estCost rt st).2.analytics = st.analytics
    ∧ (askQuestion userId is_admin hasSub purch q cid (.error err)
        estCost rt st).2.cache = st.cache := by
  have key : askQuestion userId is_admin hasSub purch q cid (.error err) estCost rt st
      = (.serverError "Failed to generate AI response",
         { st with accounts := (canUserAskS userId is_admin hasSub purch cid st.accounts).2 }) := by
    unfold askQuestion
    simp [hv, hc]
  rw [key]
  exact ⟨rfl, countersOf_canUserAskS userId is_admin hasSub purch cid st.accounts uid,
    rfl, rfl⟩

/-- Closed instance of c9_generation_failure: a subscribed user with a fresh
state and a failing agent call. -/
theorem c9_generation_failure_witness :
    (askQuestion 1 false true (fun _ => false) [104, 101, 108, 108, 111] none
        (.error "boom") (fun _ => 2) 3 ⟨[], [], []⟩).1
        = .serverError "Failed to generate AI response"
    ∧ countersOf (askQuestion 1 false true (fun _ => false) [104, 101, 108, 108, 111] none
        (.error "boom") (fun _ => 2) 3 ⟨[], [], []⟩).2.accounts 1
        = countersOf (⟨[], [], []⟩ : SifuState).accounts 1
    ∧ (askQuestion 1 false true (fun _ => false) [104, 101, 108, 108, 111] none
        (.error "boom") (fun _ => 2) 3 ⟨[], [], []⟩).2.analytics
        = (⟨[], [], []⟩ : SifuState).analytics
    ∧ (askQuestion 1 false true (fun _ => false) [104, 101, 108, 108, 111] none
        (.error "boom") (fun _ => 2) 3 ⟨[], [], []⟩).2.cache
        = (⟨[], [], []⟩ : SifuState).cache :=
  c9_generation_failure 1 false true (fun _ => false) [104, 101, 108, 108, 111] none
    "boom" (fun _ => 2) 3 ⟨[], [], []⟩ 1 (by decide) (by decide)

/-! ## C10: validation happens before everything else -/

/-- C10. A question shorter than 5 or longer than 500 code points, or a
supplied course_id that is not positive, is rejected with a 400 before the
quota check, the agent call, and every write: the state is returned
unchanged, for every engine outcome and every set of identity facts. -/
theorem c10_validation_first (userId : Nat) (is_admin hasSub : Bool)
    (purch : Nat → Bool) (q : List Nat) (cid : Option Nat)
    (engineResult : Except String AgentResponse) (estCost : AgentResponse → Nat)
    (rt : Nat) (st : SifuState)
    (hinv : q.length < 5 ∨ 500 < q.length ∨ cid = some 0) :
    askQuestion userId is_admin hasSub purch q cid engineResult estCost rt st
      = (.badRequest "Invalid question", st) := by
  have hv : validateAIQuestion q cid = false := by
    unfold validateAIQuestion
    rcases hinv with h | h | h
    · have h2 : ¬ (5 ≤ q.length) := Nat.not_le.mpr h
      simp [h2]
    · have h2 : ¬ (q.length ≤ 500) := Nat.not_le.mpr h
      simp [h2]
    · subst h
      simp
  unfold askQuestion
  simp [hv]

/-- Closed instance of c10_validation_first: a 2-character question. -/
theorem c10_validation_first_witness :
    askQuestion 1 false false (fun _ => false) [104, 105] none
        (Except.ok ⟨"r", [], [], []⟩) (fun _ => 0) 0 ⟨[], [], []⟩
      = (.badRequest "Invalid question", (⟨[], [], []⟩ : SifuState)) :=
  c10_validation_first 1 false false (fun _ => false) [104, 105] none
    (Except.ok ⟨"r", [], [], []⟩) (fun _ => 0) 0 ⟨[], [], []⟩ (Or.inl (by decide))

/-! ## C2: the question-key normalizer -/

/-- Whitespace characters are not among the stripped punctuation. -/
theorem ws_not_punct (c : Nat) (h : isWsChar c = true) : isPunctChar c = false := by
  simp only [isWsChar, Bool.or_eq_true, beq_iff_eq, decide_eq_true_eq] at h
  simp only [isPunctChar, Bool.or_eq_false_iff, beq_eq_false_iff_ne]
  omega

set_option maxRecDepth 8192 in
/-- Whitespace code points are not cased, are not the capital sigma, and
lowercase to themselves.  (They can be case-ignorable: the zero-width
no-break space U+FEFF is, so no such conjunct is stated.) -/
theorem ws_case_facts (c : Nat) (h : isWsChar c = true) :
    isCasedChar c = false ∧ lowerChar c = [c] ∧ (c == 931) = false := by
  simp only [isWsChar, Bool.or_eq_true, beq_iff_eq, decide_eq_true_eq] at h
  have h2 : c = 32 ∨ c = 9 ∨ c = 10 ∨ c = 11 ∨ c = 12 ∨ c = 13 ∨ c = 160 ∨
      c = 5760 ∨ (8192 ≤ c ∧ c ≤ 8202) ∨ c = 8232 ∨ c = 8233 ∨ c = 8239 ∨
      c = 8287 ∨ c = 12288 ∨ c = 65279 := by omega
  clear h
  rcases h2 with h | h | h | h | h | h | h | h | hr | h | h | h | h | h | h
  case inr.inr.inr.inr.inr.inr.inr.inr.inl =>
    obtain ⟨h1, h2⟩ := hr
    interval_cases c <;> decide
  all_goals subst h
  all_goals decide

set_option maxRecDepth 8192 in
/-- The stripped punctuation characters are not cased, not the capital
sigma, and lowercase to themselves. -/
theorem punct_case_facts (c : Nat) (h : isPunctChar c = true) :
    isCasedChar c = false ∧ lowerChar c = [c] ∧ (c == 931) = false := by
  simp only [isPunctChar, Bool.or_eq_true, beq_iff_eq] at h
  have h2 : c = 63 ∨ c = 46 ∨ c = 44 ∨ c = 33 := by omega
  clear h
  rcases h2 with h | h | h | h
  all_goals subst h
  all_goals decide

/-- Pushing one code point into the After scan of Final_Sigma. -/
theorem finalSigmaAfter_cons_ign (c : Nat) (h : isCaseIgnorableChar c = true)
    (l : List Nat) : finalSigmaAfter (c :: l) = finalSigmaAfter l := by
  unfold finalSigmaAfter
  rw [List.dropWhile_cons]
  simp [h]

/-- A non-ignorable head decides the After scan of Final_Sigma. -/
theorem finalSigmaAfter_cons_not_ign (c : Nat) (h : isCaseIgnorableChar c = false)
    (l : List Nat) : finalSigmaAfter (c :: l) = isCasedChar c := by
  unfold finalSigmaAfter
  rw [List.dropWhile_cons]
  simp [h]

/-- The After part of Final_Sigma only sees whitespace runs as blockers, so
whitespace-run-equivalent suffixes agree on it. -/
theorem finalSigmaAfter_wsRunEq {r1 r2 : List Nat} (h : WsRunEq r1 r2) :
    finalSigmaAfter r1 = finalSigmaAfter r2 := by
  induction h with
  | nil => rfl
  | copy c _ ih =>
    by_cases hig : isCaseIgnorableChar c = true
    · rw [finalSigmaAfter_cons_ign c hig, finalSigmaAfter_cons_ign c hig, ih]
    · have hig2 : isCaseIgnorableChar c = false := Bool.of_not_eq_true hig
      rw [finalSigmaAfter_cons_not_ign c hig2, finalSigmaAfter_cons_not_ign c hig2]
  | @pumpL c s1 t1 hws _ ih =>
    by_cases hig : isCaseIgnorableChar c = true
    · rw [finalSigmaAfter_cons_ign c hig]
      exact ih
    · have hig2 : isCaseIgnorableChar c = false := Bool.of_not_eq_true hig
      rw [finalSigmaAfter_cons_not_ign c hig2, ← ih, finalSigmaAfter_cons_not_ign c hig2]
  | @pumpR c s1 t1 hws _ ih =>
    by_cases hig : isCaseIgnorableChar c = true
    · rw [finalSigmaAfter_cons_ign c hig]
      exact ih
    · have hig2 : isCaseIgnorableChar c = false := Bool.of_not_eq_true hig
      rw [ih, finalSigmaAfter_cons_not_ign c hig2, finalSigmaAfter_cons_not_ign c hig2]

/-- Whitespace-run equivalence is preserved by prepending a common list. -/
theorem WsRunEq.append_left (x : List Nat) {a b : List Nat} (h : WsRunEq a b) :
    WsRunEq (x ++ a) (x ++ b) := by
  induction x with
  | nil => simpa using h
  | cons c x ih => exact .copy c ih

/-- Consuming a code point that is fixed by lowercasing and is not the
capital sigma just copies it and updates the flag. -/
theorem toLowerCaseAux_cons_fixed (c : Nat) (hlow : lowerChar c = [c])
    (hsig : (c == 931) = false) (b : Bool) (r : List Nat) :
    toLowerCaseAux b (c :: r) = c :: toLowerCaseAux (sigmaBeforeNext b c) r := by
  simp [toLowerCaseAux, hsig, hlow]

/-- Reading the same code point twice leaves the Final_Sigma flag where one
reading put it. -/
theorem sigmaBeforeNext_idem (b : Bool) (c : Nat) :
    sigmaBeforeNext (sigmaBeforeNext b c) c = sigmaBeforeNext b c := by
  unfold sigmaBeforeNext
  split_ifs <;> rfl

/-- Whitespace-run equivalence survives Unicode lowercasing: case mappings
fix whitespace, and the Final_Sigma context is blocked by a whitespace run
regardless of its length. -/
theorem WsRunEq.toLower {s t : List Nat} (h : WsRunEq s t) :
    ∀ b, WsRunEq (toLowerCaseAux b s) (toLowerCaseAux b t) := by
  induction h with
  | nil => intro _; exact .nil
  | @copy c s1 t1 h1 ih =>
    intro b
    have hafter : finalSigmaAfter s1 = finalSigmaAfter t1 := finalSigmaAfter_wsRunEq h1
    simp only [toLowerCaseAux, hafter]
    split_ifs with hc
    · exact .copy 962 (ih _)
    · exact WsRunEq.append_left (lowerChar c) (ih _)
  | @pumpL c s1 t1 hws _ ih =>
    intro b
    obtain ⟨hcase, hlow, hsig⟩ := ws_case_facts c hws
    have ih2 := ih b
    rw [toLowerCaseAux_cons_fixed c hlow hsig] at ih2
    rw [toLowerCaseAux_cons_fixed c hlow hsig, toLowerCaseAux_cons_fixed c hlow hsig,
        sigmaBeforeNext_idem]
    exact .pumpL c hws ih2
  | @pumpR c s1 t1 hws _ ih =>
    intro b
    obtain ⟨hcase, hlow, hsig⟩ := ws_case_facts c hws
    have ih2 := ih b
    rw [toLowerCaseAux_cons_fixed c hlow hsig] at ih2
    rw [toLowerCaseAux_cons_fixed c hlow hsig, toLowerCaseAux_cons_fixed c hlow hsig,
        sigmaBeforeNext_idem]
    exact .pumpR c hws ih2

/-- A tail made of the stripped punctuation characters never satisfies the
After part of Final_Sigma. -/
theorem finalSigmaAfter_punct : ∀ p : List Nat, (∀ c ∈ p, isPunctChar c = true) →
    finalSigmaAfter p = false := by
  intro p
  induction p with
  | nil => intro _; rfl
  | cons c rest ih =>
    intro hp
    have hcf := punct_case_facts c (hp c (List.mem_cons_self c rest))
    by_cases hig : isCaseIgnorableChar c = true
    · rw [finalSigmaAfter_cons_ign c hig]
      exact ih (fun d hd => hp d (List.mem_cons_of_mem c hd))
    · have hig2 : isCaseIgnorableChar c = false := Bool.of_not_eq_true hig
      rw [finalSigmaAfter_cons_not_ign c hig2]
      exact hcf.1

/-- Appending stripped punctuation does not change the After part of
Final_Sigma anywhere in the text. -/
theorem finalSigmaAfter_append_punct (p : List Nat)
    (hp : ∀ c ∈ p, isPunctChar c = true) :
    ∀ r : List Nat, finalSigmaAfter (r ++ p) = finalSigmaAfter r := by
  intro r
  induction r with
  | nil => simpa using finalSigmaAfter_punct p hp
  | cons c r ih =>
    by_cases hig : isCaseIgnorableChar c = true
    · simp only [List.cons_append]
      rw [finalSigmaAfter_cons_ign c hig, finalSigmaAfter_cons_ign c hig, ih]
    · have hig2 : isCaseIgnorableChar c = false := Bool.of_not_eq_true hig
      simp only [List.cons_append]
      rw [finalSigmaAfter_cons_not_ign c hig2, finalSigmaAfter_cons_not_ign c hig2]

/-- Lowercasing fixes a text made of the stripped punctuation characters. -/
theorem toLowerCaseAux_punct : ∀ (p : List Nat), (∀ c ∈ p, isPunctChar c = true) →
    ∀ b, toLowerCaseAux b p = p := by
  intro p
  induction p with
  | nil => intro _ _; rfl
  | cons c rest ih =>
    intro hp b
    have hcf := punct_case_facts c (hp c (List.mem_cons_self c rest))
    have ih2 := ih (fun d hd => hp d (List.mem_cons_of_mem c hd))
    simp [toLowerCaseAux, hcf.2.1, hcf.2.2, ih2]

/-- Lowercasing commutes with appending stripped punctuation, which it
leaves unchanged. -/
theorem toLowerCaseAux_append_punct (p : List Nat)
    (hp : ∀ c ∈ p, isPunctChar c = true) :
    ∀ (s : List Nat) (b : Bool), toLowerCaseAux b (s ++ p) = toLowerCaseAux b s ++ p := by
  intro s
  induction s with
  | nil =>
    intro b
    simpa using toLowerCaseAux_punct p hp b
  | cons c s ih =>
    intro b
    rw [List.cons_append]
    simp only [toLowerCaseAux, finalSigmaAfter_append_punct p hp s]
    split_ifs with hc
    · rw [List.cons_append, ih]
    · rw [List.append_assoc, ih]

/-- Whitespace-run equivalence survives punctuation stripping (removing a
non-whitespace character can merge two runs, which the relation absorbs). -/
theorem WsRunEq.filter_punct {s t : List Nat} (h : WsRunEq s t) :
    WsRunEq (s.filter (fun c => !isPunctChar c)) (t.filter (fun c => !isPunctChar c)) := by
  induction h with
  | nil => exact .nil
  | copy c _ ih =>
    by_cases hp : isPunctChar c = true
    · simpa [List.filter_cons, hp] using ih
    · have hp2 : isPunctChar c = false := Bool.of_not_eq_true hp
      simpa [List.filter_cons, hp2] using WsRunEq.copy c ih
  | pumpL c hws _ ih =>
    have hp : isPunctChar c = false := ws_not_punct c hws
    simp only [List.filter_cons, hp, Bool.not_false, if_pos]
    simp only [List.filter_cons, hp, Bool.not_false, if_pos] at ih
    exact .pumpL c hws ih
  | pumpR c hws _ ih =>
    have hp : isPunctChar c = false := ws_not_punct c hws
    simp only [List.filter_cons, hp, Bool.not_false, if_pos]
    simp only [List.filter_cons, hp, Bool.not_false, if_pos] at ih
    exact .pumpR c hws ih

/-- Whitespace-run-equivalent texts collapse to the same string. -/
theorem WsRunEq.collapseAux_eq {s t : List Nat} (h : WsRunEq s t) :
    ∀ b, collapseAux b s = collapseAux b t := by
  induction h with
  | nil => intro b; rfl
  | copy c _ ih =>
    intro b
    by_cases hw : isWsChar c = true
    · cases b <;> simp [collapseAux, hw, ih]
    · have hw2 : isWsChar c = false := Bool.of_not_eq_true hw
      simp [collapseAux, hw2, ih]
  | @pumpL c s1 t1 hws _ ih =>
    intro b
    have key : ∀ b2, collapseAux b2 (c :: c :: s1) = collapseAux b2 (c :: s1) := by
      intro b2; cases b2 <;> simp [collapseAux, hws]
    rw [key b, ih b]
  | @pumpR c s1 t1 hws _ ih =>
    intro b
    have key : ∀ b2, collapseAux b2 (c :: c :: t1) = collapseAux b2 (c :: t1) := by
      intro b2; cases b2 <;> simp [collapseAux, hws]
    rw [ih b]
    exact (key b).symm

/-- Whitespace-run-equivalent texts normalize identically. -/
theorem normalizeQuestion_wsRunEq {s t : List Nat} (h : WsRunEq s t) :
    normalizeQuestion s = normalizeQuestion t := by
  unfold normalizeQuestion collapseWs toLowerCase
  rw [WsRunEq.collapseAux_eq (WsRunEq.filter_punct (WsRunEq.toLower h false)) false]

/-- C2. hashQuestion is a pure function of the normalized text (Unicode
lowercasing, strip the characters in the ?.,! class, collapse whitespace
runs, trim, SHA-256 as lowercase hex); consequently texts that differ only
by casing (same Unicode lowercasing), only by appended trailing punctuation
from that class, or only by whitespace run lengths hash to the same key. -/
theorem c2_hashQuestion_normalization :
    (∀ s t : List Nat, normalizeQuestion s = normalizeQuestion t →
        hashQuestion s = hashQuestion t)
    ∧ (∀ s t : List Nat, toLowerCase s = toLowerCase t →
        hashQuestion s = hashQuestion t)
    ∧ (∀ s p : List Nat, (∀ c ∈ p, isPunctChar c = true) →
        hashQuestion (s ++ p) = hashQuestion s)
    ∧ (∀ s t : List Nat, WsRunEq s t → hashQuestion s = hashQuestion t) := by
  have hkey : ∀ s t : List Nat, normalizeQuestion s = normalizeQuestion t →
      hashQuestion s = hashQuestion t := by
    intro s t h
    unfold hashQuestion
    rw [h]
  refine ⟨hkey, ?_, ?_, ?_⟩
  · intro s t h
    apply hkey
    unfold normalizeQuestion
    rw [h]
  · intro s p hp
    apply hkey
    unfold normalizeQuestion toLowerCase
    rw [toLowerCaseAux_append_punct p hp s false, List.filter_append]
    have hnil : p.filter (fun c => !isPunctChar c) = [] := by
      rw [List.filter_eq_nil_iff]
      intro a ha
      simp [hp a ha]
    rw [hnil, List.append_nil]
  · intro s t h
    exact hkey s t (normalizeQuestion_wsRunEq h)

set_option maxRecDepth 8192 in
/-- Closed instances of c2_hashQuestion_normalization: a non-ASCII casing
change (capital and small e-acute), a trailing question mark, and a doubled
space each leave the key unchanged. -/
theorem c2_hashQuestion_normalization_witness :
    hashQuestion [201, 84, 201] = hashQuestion [233, 116, 233]
    ∧ hashQuestion [113, 105, 63] = hashQuestion [113, 105]
    ∧ hashQuestion [113, 32, 32, 105] = hashQuestion [113, 32, 105] :=
  ⟨c2_hashQuestion_normalization.2.1 [201, 84, 201] [233, 116, 233] (by decide),
   c2_hashQuestion_normalization.2.2.1 [113, 105] [63] (by
     intro c hc
     simp only [List.mem_singleton] at hc
     subst hc
     rfl),
   c2_hashQuestion_normalization.2.2.2 [113, 32, 32, 105] [113, 32, 105]
     (.copy 113 (.pumpL 32 (by decide) (.copy 32 (.copy 105 .nil))))⟩

end AISifu

